import Mathlib

/-!
The fake storage driver of trident (`drivers/fake/fake.go`)

A shallow embedding of the pool/volume allocation engine of the in-memory
"fake" storage driver, followed by theorems about it.

* A Go map with string keys is `none` when it is the nil map and otherwise an
  association list without duplicate keys (`AList`). Reading `m[k]` with the
  comma-ok idiom is `mapGet`, which finds nothing in the nil map; `m[k] = v` is
  `AList.insert` and panics on the nil map; `delete(m, k)` is `AList.erase`.
* The pool registry is a `map[string]*FakeStoragePool`. A pointer is `none`
  when nil and otherwise an address; the pool objects live in a memory
  `PoolAt`, from addresses to pools, which is part of the driver state. Two
  keys that hold the same address share one pool object.
* `uint64` values are natural numbers; the two arithmetic statements of the
  driver (`-=` and `+=`) wrap modulo `2 ^ 64` explicitly.
* A Go method with a pointer receiver that returns `error` is a function from
  the driver state to the pair (state afterwards, how the call ended): it
  returned `nil` or an error, or it panicked (write to a nil map, nil pointer
  dereference). The state of a panicked call holds the writes made before the
  panic.
-/

namespace Fake

/-! ## Data model -/

/-- A Go `map[string]V` that is not nil. -/
abbrev GoMap (V : Type) := AList (fun _ : String => V)

/-- Two maps are equal when their entries are; decided on the entries. -/
instance instDecidableEqGoMap {V : Type} [DecidableEq V] : DecidableEq (GoMap V) :=
  fun a b => decidable_of_iff (a.entries = b.entries) ⟨AList.ext, fun h => congrArg _ h⟩

/-- The read `v, ok := m[k]` on a map that may be nil: the nil map has no key. -/
def mapGet {V : Type} (m : Option (GoMap V)) (k : String) : Option V :=
  match m with
  | none => none
  | some entries => entries.lookup k

/-- The entries of a map that may be nil, in the order in which it is ranged over; the nil
map has none. -/
def mapEntries {V : Type} (m : Option (GoMap V)) : List (Σ _ : String, V) :=
  match m with
  | none => []
  | some entries => entries.entries

/-- The keys of a map that may be nil, in the order in which it is ranged over. -/
def mapKeys {V : Type} (m : Option (GoMap V)) : List String :=
  match m with
  | none => []
  | some entries => entries.keys

/-- The constant `FakeStorageDriverName`. -/
def FakeStorageDriverName : String := "fake"

/-- The constant `FakePoolAttribute`: the key of the options map naming the pool. -/
def FakePoolAttribute : String := "pool"

/-- The number of values of a `uint64`. -/
def uint64Size : Nat := 2 ^ 64

/-- Go `a - b` on `uint64`: subtraction that wraps around below zero. -/
def subUint64 (a b : Nat) : Nat := (a + uint64Size - b % uint64Size) % uint64Size

/-- Go `a + b` on `uint64`: addition that wraps around at `2 ^ 64`. -/
def addUint64 (a b : Nat) : Nat := (a + b) % uint64Size

/-- The struct `FakeStoragePool`. The type `Offer` stands for `sa.Offer`, which lives in
another package; the driver never inspects it. -/
structure FakeStoragePool (Offer : Type) where
  /-- Field `Attrs map[string]sa.Offer`. -/
  Attrs : GoMap Offer
  /-- Field `Bytes uint64`: the capacity that remains in the pool. -/
  Bytes : Nat
  deriving DecidableEq

/-- The part of `dvp.CommonStorageDriverConfig` (an external package) that the driver
touches: the serial numbers. -/
structure CommonStorageDriverConfig where
  /-- Field `SerialNumbers []string`. -/
  SerialNumbers : List String
  deriving DecidableEq

/-- The struct `FakeStorageDriverConfig`. -/
structure FakeStorageDriverConfig where
  /-- The embedded `*dvp.CommonStorageDriverConfig`; `none` is the nil pointer. -/
  Common : Option CommonStorageDriverConfig
  /-- Field `Protocol config.Protocol`, a string type. -/
  Protocol : String
  /-- Field `Pools map[string]*FakeStoragePool`, the pool registry: `none` is the nil map;
  a key holds `none` for a nil pointer or the address of a pool object. -/
  Pools : Option (GoMap (Option Nat))
  /-- Field `InstanceName string`. -/
  InstanceName : String
  deriving DecidableEq

/-- The struct `FakeVolume`. -/
structure FakeVolume where
  Name : String
  PoolName : String
  SizeBytes : Nat
  deriving DecidableEq

/-- The struct `FakeStorageDriver`: configuration, volume table and the record of the
names on which destroy has been called, together with the memory that the pool pointers
of the configuration refer to. -/
structure FakeStorageDriver (Offer : Type) where
  Config : FakeStorageDriverConfig
  /-- Field `Volumes map[string]FakeVolume`; `none` is the nil map. -/
  Volumes : Option (GoMap FakeVolume)
  /-- Field `DestroyedVolumes map[string]bool`; `none` is the nil map. -/
  DestroyedVolumes : Option (GoMap Bool)
  /-- The pool object at each address. -/
  PoolAt : Nat → FakeStoragePool Offer

/-- The errors the driver builds, one constructor per format string, with the arguments
that are formatted into it. -/
inductive FakeError where
  /-- "No pool specified.  Expected %s in opts map", with the expected key. -/
  | noPoolSpecified (expected : String)
  /-- "Could not find pool %s."; `Create` and `CreateClone` format the (nil) pool pointer,
  here `none`, `Destroy` formats the pool name of the volume. -/
  | couldNotFindPool (pool : Option String)
  /-- "Volume %s already exists". -/
  | volumeAlreadyExists (name : String)
  /-- "Requested volume is too large.  Requested %d bytes; have %d available in pool %s." -/
  | volumeTooLarge (requested available : Nat) (poolName : String)
  /-- "Source volume %s not found". -/
  | sourceVolumeNotFound (name : String)
  /-- "Requested clone is too large.  Requested %d bytes; have %d available in pool %s." -/
  | cloneTooLarge (requested available : Nat) (poolName : String)
  /-- The call `errors.New(message)`, used by the operations the driver does not support. -/
  | errorsNew (message : String)
  /-- "Unable to initialize fake driver: %v", with the text of the decoder's error. -/
  | unableToInitialize (cause : String)
  /-- "Could not find volume %s." -/
  | couldNotFindVolume (name : String)
  deriving DecidableEq

/-- How a call ends: it returns its error value (`none` for `nil`), or it panics. -/
inductive Ending where
  | returned (err : Option FakeError)
  | panicked
  deriving DecidableEq

variable {Offer : Type}

/-- The function `NewFakeStorageDriver`: the given configuration, whose pool pointers
refer to the memory `poolAt`, a new empty volume table and a new empty record of destroyed
names. -/
def NewFakeStorageDriver (config : FakeStorageDriverConfig)
    (poolAt : Nat → FakeStoragePool Offer) : FakeStorageDriver Offer :=
  { Config := config, Volumes := some ∅, DestroyedVolumes := some ∅, PoolAt := poolAt }

/-- The statement `pool.Bytes = b` through the pointer `addr`: the pool object at that
address changes, for every key that holds the address. -/
def setPoolBytes (poolAt : Nat → FakeStoragePool Offer) (addr : Nat) (b : Nat) :
    Nat → FakeStoragePool Offer :=
  fun a => if a = addr then { poolAt addr with Bytes := b } else poolAt a

/-! ## Operations -/

/-- The method `Create`. A nil options map reads as the empty one. -/
def Create (d : FakeStorageDriver Offer) (name : String) (sizeBytes : Nat)
    (opts : GoMap String) : FakeStorageDriver Offer × Ending :=
  match opts.lookup FakePoolAttribute with
  | none => (d, .returned (some (.noPoolSpecified FakePoolAttribute)))
  | some poolName =>
    match mapGet d.Config.Pools poolName with
    | none => (d, .returned (some (.couldNotFindPool none)))
    | some pool =>
      if (mapGet d.Volumes name).isSome then
        (d, .returned (some (.volumeAlreadyExists name)))
      else
        match pool with
        | none => (d, .panicked)
        | some addr =>
          if sizeBytes > (d.PoolAt addr).Bytes then
            (d, .returned (some (.volumeTooLarge sizeBytes (d.PoolAt addr).Bytes poolName)))
          else
            match d.Volumes with
            | none => (d, .panicked)
            | some volumes =>
              match d.DestroyedVolumes with
              | none =>
                ({ d with Volumes := some (volumes.insert name
                     { Name := name, PoolName := poolName, SizeBytes := sizeBytes }) },
                  .panicked)
              | some destroyed =>
                ({ Config := d.Config
                   Volumes := some (volumes.insert name
                     { Name := name, PoolName := poolName, SizeBytes := sizeBytes })
                   DestroyedVolumes := some (destroyed.insert name false)
                   PoolAt := setPoolBytes d.PoolAt addr
                     (subUint64 (d.PoolAt addr).Bytes sizeBytes) }, .returned none)

/-- The method `CreateClone`. The arguments `snapshot` and `opts` are only logged or
ignored by the source. -/
def CreateClone (d : FakeStorageDriver Offer) (name source : String) (_snapshot : String)
    (_opts : GoMap String) : FakeStorageDriver Offer × Ending :=
  match mapGet d.Volumes source with
  | none => (d, .returned (some (.sourceVolumeNotFound name)))
  | some sourceVolume =>
    if (mapGet d.Volumes name).isSome then
      (d, .returned (some (.volumeAlreadyExists name)))
    else
      match mapGet d.Config.Pools sourceVolume.PoolName with
      | none => (d, .returned (some (.couldNotFindPool none)))
      | some none => (d, .panicked)
      | some (some addr) =>
        if sourceVolume.SizeBytes > (d.PoolAt addr).Bytes then
          (d, .returned (some (.cloneTooLarge sourceVolume.SizeBytes (d.PoolAt addr).Bytes
            sourceVolume.PoolName)))
        else
          match d.Volumes with
          | none => (d, .panicked)
          | some volumes =>
            match d.DestroyedVolumes with
            | none =>
              ({ d with Volumes := some (volumes.insert name
                   { Name := name, PoolName := sourceVolume.PoolName,
                     SizeBytes := sourceVolume.SizeBytes }) }, .panicked)
            | some destroyed =>
              ({ Config := d.Config
                 Volumes := some (volumes.insert name
                   { Name := name, PoolName := sourceVolume.PoolName,
                     SizeBytes := sourceVolume.SizeBytes })
                 DestroyedVolumes := some (destroyed.insert name false)
                 PoolAt := setPoolBytes d.PoolAt addr
                   (subUint64 (d.PoolAt addr).Bytes sourceVolume.SizeBytes) }, .returned none)

/-- The method `Destroy`. The record of destroyed names is written first, on every path;
`delete` on the volume table comes last. -/
def Destroy (d : FakeStorageDriver Offer) (name : String) :
    FakeStorageDriver Offer × Ending :=
  match d.DestroyedVolumes with
  | none => (d, .panicked)
  | some destroyed =>
    match mapGet d.Volumes name with
    | none => ({ d with DestroyedVolumes := some (destroyed.insert name true) }, .returned none)
    | some volume =>
      match mapGet d.Config.Pools volume.PoolName with
      | none =>
        ({ d with DestroyedVolumes := some (destroyed.insert name true) },
          .returned (some (.couldNotFindPool (some volume.PoolName))))
      | some none =>
        ({ d with DestroyedVolumes := some (destroyed.insert name true) }, .panicked)
      | some (some addr) =>
        ({ Config := d.Config
           Volumes := d.Volumes.map (fun volumes => volumes.erase name)
           DestroyedVolumes := some (destroyed.insert name true)
           PoolAt := setPoolBytes d.PoolAt addr
             (addUint64 (d.PoolAt addr).Bytes volume.SizeBytes) }, .returned none)

/-! ## Sequences of calls and derived notions -/

/-- One call of a mutating operation, with its arguments. -/
inductive Call where
  | create (name : String) (sizeBytes : Nat) (opts : GoMap String)
  | createClone (name source snapshot : String) (opts : GoMap String)
  | destroy (name : String)

/-- The driver after one call, and how the call ended. -/
def call (d : FakeStorageDriver Offer) : Call → FakeStorageDriver Offer × Ending
  | .create name sizeBytes opts => Create d name sizeBytes opts
  | .createClone name source snapshot opts => CreateClone d name source snapshot opts
  | .destroy name => Destroy d name

/-- The driver after one call (how the call ended is dropped). -/
def step (d : FakeStorageDriver Offer) (c : Call) : FakeStorageDriver Offer :=
  (call d c).1

/-- The driver after a sequence of calls, made in order. -/
def run (d : FakeStorageDriver Offer) (calls : List Call) : FakeStorageDriver Offer :=
  calls.foldl step d

/-- The sum of `SizeBytes` over the live volumes whose `PoolName` is `p`. -/
def liveBytes (vols : Option (GoMap FakeVolume)) (p : String) : Nat :=
  (((mapEntries vols).filter (fun e => decide (e.2.PoolName = p))).map
    (fun e => e.2.SizeBytes)).sum

/-- The contribution of one volume to the bytes in use of pool `p`. -/
def bytesIn (v : FakeVolume) (p : String) : Nat := if v.PoolName = p then v.SizeBytes else 0

/-- The pointers held by the keys of the pool registry, one per key. -/
def poolPointers (config : FakeStorageDriverConfig) : List (Option Nat) :=
  (mapEntries config.Pools).map (fun e => e.2)

/-- Every key of the pool registry holds a pool of its own: no pointer is nil and no two
keys hold the same pointer. -/
def OwnPools (config : FakeStorageDriverConfig) : Prop :=
  none ∉ poolPointers config ∧ (poolPointers config).Nodup

instance (config : FakeStorageDriverConfig) : Decidable (OwnPools config) :=
  inferInstanceAs (Decidable (none ∉ poolPointers config ∧ (poolPointers config).Nodup))

/-- Every pool object of the registry holds a `uint64` value. -/
def PoolsInRange (d : FakeStorageDriver Offer) : Prop :=
  ∀ a ∈ (poolPointers d.Config).reduceOption, (d.PoolAt a).Bytes < uint64Size

instance (d : FakeStorageDriver Offer) : Decidable (PoolsInRange d) :=
  inferInstanceAs
    (Decidable (∀ a ∈ (poolPointers d.Config).reduceOption, (d.PoolAt a).Bytes < uint64Size))

/-- The remaining bytes of the pool under key `p`, when the registry has a pool there. -/
def remaining (d : FakeStorageDriver Offer) (p : String) : Option Nat :=
  match mapGet d.Config.Pools p with
  | some (some addr) => some (d.PoolAt addr).Bytes
  | _ => none

/-- Capacity conservation with respect to the configuration `cfg` and the memory `poolAt`
the driver started from: the configuration is still `cfg`, both maps are made, and for
each pool of the registry the remaining bytes plus the bytes of the live volumes bound to
its key are the capacity it started with. -/
def Conserved (cfg : FakeStorageDriverConfig) (poolAt : Nat → FakeStoragePool Offer)
    (d : FakeStorageDriver Offer) : Prop :=
  d.Config = cfg ∧ d.Volumes ≠ none ∧ d.DestroyedVolumes ≠ none ∧
  ∀ k addr, mapGet cfg.Pools k = some (some addr) →
    (d.PoolAt addr).Bytes + liveBytes d.Volumes k = (poolAt addr).Bytes

/-- The name `name` is recorded as destroyed: `DestroyedVolumes[name]` is `true`. -/
def Recorded (d : FakeStorageDriver Offer) (name : String) : Prop :=
  mapGet d.DestroyedVolumes name = some true

instance (d : FakeStorageDriver Offer) (name : String) : Decidable (Recorded d name) :=
  inferInstanceAs (Decidable (mapGet d.DestroyedVolumes name = some true))

/-- Both maps are made, and every live volume is stored under its own name and names a
key of the registry that holds a pool. -/
def Consistent (d : FakeStorageDriver Offer) : Prop :=
  d.Volumes ≠ none ∧ d.DestroyedVolumes ≠ none ∧
  ∀ n v, mapGet d.Volumes n = some v →
    v.Name = n ∧ ∃ addr, mapGet d.Config.Pools v.PoolName = some (some addr)

/-! ## Initialization, listing and the unsupported operations -/

/-- The method `FakeStoragePool.UnmarshalJSON`. `decodeTmp` stands for `json.Unmarshal` into
the temporary struct (raw attributes and size) and `UnmarshalOfferMap` for
`sa.UnmarshalOfferMap`; neither is part of the source. The attribute map is assigned before
the error of the offer decoder is tested, the size only on success. -/
def FakeStoragePool.UnmarshalJSON (decodeTmp : String → Except String (String × Nat))
    (UnmarshalOfferMap : String → GoMap Offer × Option String)
    (p : FakeStoragePool Offer) (data : String) : FakeStoragePool Offer × Option String :=
  match decodeTmp data with
  | .error err => (p, some err)
  | .ok (attrs, bytes) =>
    match UnmarshalOfferMap attrs with
    | (offers, some err) => ({ p with Attrs := offers }, some err)
    | (offers, none) => ({ Attrs := offers, Bytes := bytes }, none)

/-- The method `Initialize`. `jsonUnmarshal` stands for `json.Unmarshal(data, &d.Config)` of
the standard library: it is given the configuration the driver holds and the memory of the
pool objects, because it decodes in place and allocates the pools it decodes, and yields
what both hold afterwards together with its error. `SerialNumbers` is a field of the
embedded `*dvp.CommonStorageDriverConfig`, so the assignment to it dereferences that
pointer, after both maps have been made. The parameters `context` and `commonConfig` are
not used by the source, and neither is the result of the final `json.Marshal`. -/
def Initialize
    (jsonUnmarshal : String → FakeStorageDriverConfig → (Nat → FakeStoragePool Offer) →
      FakeStorageDriverConfig × (Nat → FakeStoragePool Offer) × Option String)
    (d : FakeStorageDriver Offer) (_context : String) (configJSON : String)
    (_commonConfig : Option CommonStorageDriverConfig) : FakeStorageDriver Offer × Ending :=
  match jsonUnmarshal configJSON d.Config d.PoolAt with
  | (config, poolAt, some err) =>
    ({ d with Config := config, PoolAt := poolAt },
      .returned (some (.unableToInitialize err)))
  | (config, poolAt, none) =>
    match config.Common with
    | none =>
      ({ Config := config, Volumes := some ∅, DestroyedVolumes := some ∅, PoolAt := poolAt },
        .panicked)
    | some common =>
      ({ Config := { config with
           Common := some { common with SerialNumbers := [config.InstanceName ++ "_SN"] } }
         Volumes := some ∅
         DestroyedVolumes := some ∅
         PoolAt := poolAt }, .returned none)

/-- The method `Attach`. -/
def Attach (d : FakeStorageDriver Offer) (_name _mountpoint : String) (_opts : GoMap String) :
    FakeStorageDriver Offer × Option FakeError :=
  (d, some (.errorsNew "Fake driver does not support attaching."))

/-- The method `Detach`. -/
def Detach (d : FakeStorageDriver Offer) (_name _mountpoint : String) :
    FakeStorageDriver Offer × Option FakeError :=
  (d, some (.errorsNew "Fake driver does not support detaching."))

/-- The method `SnapshotList`; `Snapshot` stands for `dvp.CommonSnapshot`. The returned
slice is `nil`. -/
def SnapshotList {Snapshot : Type} (d : FakeStorageDriver Offer) (_name : String) :
    FakeStorageDriver Offer × List Snapshot × Option FakeError :=
  (d, [], some (.errorsNew "Fake driver does not support SnapshotList"))

/-- The method `List`: the keys of the volume table, appended one by one in the order in
which the map is ranged over (no key for the nil map). Go leaves that order open; here it
is the order of the entries of the association list, so that ranging over all states
ranges over all orders. -/
def FakeStorageDriver.List (d : FakeStorageDriver Offer) :
    FakeStorageDriver Offer × List String × Option FakeError :=
  (d, (mapKeys d.Volumes).foldl (fun vols vol => vols ++ [vol]) [], none)

/-- The method `Get`. -/
def Get (d : FakeStorageDriver Offer) (name : String) :
    FakeStorageDriver Offer × Option FakeError :=
  match mapGet d.Volumes name with
  | none => (d, some (.couldNotFindVolume name))
  | some _ => (d, none)

/-! ## Concrete states and inputs used as examples -/

/-- One key "gold", holding the pool at address 0. -/
def goldConfig : FakeStorageDriverConfig :=
  { Common := some { SerialNumbers := [] }, Protocol := "file",
    Pools := some ((∅ : GoMap (Option Nat)).insert "gold" (some 0)),
    InstanceName := "fake1" }

/-- A memory in which every pool object has 1000 bytes and no attributes. -/
def goldPools : Nat → FakeStoragePool Unit := fun _ => { Attrs := ∅, Bytes := 1000 }

/-- The options map `{"pool": "gold"}`. -/
def goldOpts : GoMap String := (∅ : GoMap String).insert "pool" "gold"

/-- A fresh driver over `goldConfig`: one pool "gold" with 1000 bytes. -/
def gold0 : FakeStorageDriver Unit := NewFakeStorageDriver goldConfig goldPools

/-- The driver `gold0` after `Create("v1", 400, {pool: gold})`. -/
def gold1 : FakeStorageDriver Unit := (Create gold0 "v1" 400 goldOpts).1

/-- The worked scenario after the rejected `Create("v2", 700, {pool: gold})`. -/
def gold2 : FakeStorageDriver Unit := (Create gold1 "v2" 700 goldOpts).1

/-- The worked scenario after `CreateClone("v1-clone", "v1", "snap1", {})`. -/
def gold3 : FakeStorageDriver Unit := (CreateClone gold2 "v1-clone" "v1" "snap1" ∅).1

/-- The worked scenario after `Destroy("v1")`. -/
def gold4 : FakeStorageDriver Unit := (Destroy gold3 "v1").1

/-- A driver whose volume "v1" names a pool "ghost" that the registry does not have. -/
def orphanDriver : FakeStorageDriver Unit :=
  { Config := goldConfig,
    Volumes := some ((∅ : GoMap FakeVolume).insert "v1"
      { Name := "v1", PoolName := "ghost", SizeBytes := 10 }),
    DestroyedVolumes := some ∅,
    PoolAt := goldPools }

/-- A driver whose pool "gold" holds the largest `uint64` value while a volume of one byte
is bound to it. -/
def fullDriver : FakeStorageDriver Unit :=
  { Config := goldConfig,
    Volumes := some ((∅ : GoMap FakeVolume).insert "v1"
      { Name := "v1", PoolName := "gold", SizeBytes := 1 }),
    DestroyedVolumes := some ∅,
    PoolAt := fun _ => { Attrs := ∅, Bytes := 18446744073709551615 } }

/-- The zero value `FakeStorageDriver{}`: nil maps, empty strings, nil embedded pointer. -/
def zeroDriver : FakeStorageDriver Unit :=
  { Config := { Common := none, Protocol := "", Pools := none, InstanceName := "" },
    Volumes := none, DestroyedVolumes := none, PoolAt := goldPools }

/-- The zero-valued driver after a decoding that wrote the pool "gold" into the registry
and then failed: `Initialize` returned the error before making the two maps. -/
def unmadeDriver : FakeStorageDriver Unit :=
  { Config := goldConfig, Volumes := none, DestroyedVolumes := none, PoolAt := goldPools }

/-- Two keys "a" and "b" that hold the same pointer, the pool at address 0. -/
def sharedConfig : FakeStorageDriverConfig :=
  { Common := some { SerialNumbers := [] }, Protocol := "file",
    Pools := some (((∅ : GoMap (Option Nat)).insert "b" (some 0)).insert "a" (some 0)),
    InstanceName := "fake1" }

/-- A fresh driver over `sharedConfig`: one pool object of 1000 bytes under two keys. -/
def sharedDriver : FakeStorageDriver Unit := NewFakeStorageDriver sharedConfig goldPools

/-- The options map `{"pool": "a"}`. -/
def aOpts : GoMap String := (∅ : GoMap String).insert "pool" "a"

/-- A registry whose key "gold" holds a nil pointer, as decoding `"gold": null` leaves
it. -/
def nilPoolConfig : FakeStorageDriverConfig :=
  { Common := some { SerialNumbers := [] }, Protocol := "file",
    Pools := some ((∅ : GoMap (Option Nat)).insert "gold" none),
    InstanceName := "fake1" }

/-- A fresh driver over `nilPoolConfig`. -/
def nilPoolDriver : FakeStorageDriver Unit := NewFakeStorageDriver nilPoolConfig goldPools

/-- The driver `gold1`, with its live volume "v1" of pool "gold", after a decoding that
wrote `"gold": null` into the registry and then failed. -/
def nilPoolLive : FakeStorageDriver Unit := { gold1 with Config := nilPoolConfig }

/-- A configuration input that sets only the instance name. -/
def instanceOnlyJSON : String := "\x7b\"instanceName\": \"fake1\"\x7d"

/-- A configuration input whose instance name is a number where a string is expected. -/
def typeMismatchJSON : String := "\x7b\"protocol\": \"block\", \"instanceName\": 5\x7d"

/-- The text of the type error of `json.Unmarshal` on `typeMismatchJSON`. -/
def typeMismatchError : String :=
  "json: cannot unmarshal number into Go struct field " ++
    "FakeStorageDriverConfig.instanceName of type string"

/-- What `json.Unmarshal` does on the two inputs above, as documented for the standard
library. On `instanceOnlyJSON` it sets the instance name, touches nothing else (a nil
embedded pointer stays nil when no field of it occurs) and returns no error. On
`typeMismatchJSON` it sets the protocol, skips the mistyped field and returns the type
error. No other input is modelled: there this stand-in writes nothing and reports an
error. -/
def jsonUnmarshalSample (data : String) (config : FakeStorageDriverConfig)
    (poolAt : Nat → FakeStoragePool Unit) :
    FakeStorageDriverConfig × (Nat → FakeStoragePool Unit) × Option String :=
  if data = instanceOnlyJSON then
    ({ config with InstanceName := "fake1" }, poolAt, none)
  else if data = typeMismatchJSON then
    ({ config with Protocol := "block" }, poolAt, some typeMismatchError)
  else
    (config, poolAt, some "input not modelled")

end Fake

/-! ## The protocols of `config/config.go` -/

namespace Config

/-- The type `Protocol`, a string type. -/
abbrev Protocol := String

/-- The constant `File`. -/
def File : Protocol := "file"

/-- The constant `Block`. -/
def Block : Protocol := "block"

/-- The constant `ProtocolAny`. -/
def ProtocolAny : Protocol := ""

/-- The constant `ProtocolUnsupported`. -/
def ProtocolUnsupported : Protocol := "unsupported"

/-- The variable `validProtocols`, a `map[Protocol]bool` with three keys. -/
def validProtocols : Fake.GoMap Bool :=
  (((∅ : Fake.GoMap Bool).insert ProtocolAny true).insert Block true).insert File true

/-- The function `IsValidProtocol`: whether `p` is a key of `validProtocols`. -/
def IsValidProtocol (p : Protocol) : Bool := (validProtocols.lookup p).isSome

/-- The body of `GetValidProtocolNames` for a given order `iteration` in which the map is
ranged over: `ret` starts as `make([]string, len(validProtocols))`, a slice of that many
empty strings, and every key is appended to it. -/
def GetValidProtocolNamesIn (iteration : List Protocol) : List String :=
  iteration.foldl (fun ret key => ret ++ [key]) (List.replicate validProtocols.keys.length "")

/-- The function `GetValidProtocolNames`, ranging over the map in the order of its
entries. -/
def GetValidProtocolNames : List String := GetValidProtocolNamesIn validProtocols.keys

end Config

namespace Fake

variable {Offer : Type}

/-! ## Arithmetic on `uint64` -/

theorem subUint64_eq {a b : Nat} (hb : b ≤ a) (ha : a < uint64Size) : subUint64 a b = a - b := by
  unfold subUint64 uint64Size at *
  have h1 : b % 2 ^ 64 = b := Nat.mod_eq_of_lt (by omega)
  rw [h1]
  have h2 : a + 2 ^ 64 - b = (a - b) + 2 ^ 64 := by omega
  rw [h2, Nat.add_mod_right]
  exact Nat.mod_eq_of_lt (by omega)

theorem addUint64_eq {a b : Nat} (h : a + b < uint64Size) : addUint64 a b = a + b := by
  unfold addUint64
  exact Nat.mod_eq_of_lt h

/-! ## Maps and memory -/

theorem dlookup_cons_of_ne {V : Type} {k a : String} (b : V) (l : List (Σ _ : String, V))
    (h : k ≠ a) : List.dlookup k (⟨a, b⟩ :: l) = List.dlookup k l :=
  List.dlookup_cons_ne (β := fun _ : String => V) l ⟨a, b⟩ h

theorem lookup_insert_other {V : Type} (m : GoMap V) {k k' : String} (v : V) (h : k' ≠ k) :
    (m.insert k v).lookup k' = m.lookup k' :=
  AList.lookup_insert_ne h

theorem lookup_erase_other {V : Type} (m : GoMap V) {k k' : String} (h : k' ≠ k) :
    (m.erase k).lookup k' = m.lookup k' :=
  AList.lookup_erase_ne h

theorem mapGet_some {V : Type} (m : GoMap V) (k : String) : mapGet (some m) k = m.lookup k :=
  rfl

theorem mapGet_none {V : Type} (k : String) : mapGet (none : Option (GoMap V)) k = none :=
  rfl

theorem ne_none_of_mapGet {V : Type} {m : Option (GoMap V)} {k : String} {v : V}
    (h : mapGet m k = some v) : ∃ entries, m = some entries ∧ entries.lookup k = some v := by
  cases m with
  | none => simp [mapGet] at h
  | some entries => exact ⟨entries, rfl, h⟩

theorem setPoolBytes_self (poolAt : Nat → FakeStoragePool Offer) (addr b : Nat) :
    setPoolBytes poolAt addr b addr = { poolAt addr with Bytes := b } := by
  simp [setPoolBytes]

theorem setPoolBytes_other (poolAt : Nat → FakeStoragePool Offer) {addr a : Nat} (b : Nat)
    (h : a ≠ addr) : setPoolBytes poolAt addr b a = poolAt a := by
  simp [setPoolBytes, h]

theorem pointer_mem_of_mapGet {config : FakeStorageDriverConfig} {k : String}
    {p : Option Nat} (h : mapGet config.Pools k = some p) : p ∈ poolPointers config := by
  obtain ⟨entries, hm, hl⟩ := ne_none_of_mapGet h
  unfold poolPointers
  rw [hm]
  exact List.mem_map.mpr ⟨⟨k, p⟩, AList.mem_lookup_iff.mp hl, rfl⟩

theorem bytes_lt_of_mapGet {d : FakeStorageDriver Offer} (h : PoolsInRange d) {k : String}
    {addr : Nat} (hk : mapGet d.Config.Pools k = some (some addr)) :
    (d.PoolAt addr).Bytes < uint64Size :=
  h addr (List.reduceOption_mem_iff.mpr (pointer_mem_of_mapGet hk))

theorem OwnPools.not_nil {config : FakeStorageDriverConfig} (h : OwnPools config) {k : String}
    {p : Option Nat} (hk : mapGet config.Pools k = some p) : ∃ addr, p = some addr := by
  cases p with
  | none => exact absurd (pointer_mem_of_mapGet hk) h.1
  | some addr => exact ⟨addr, rfl⟩

theorem OwnPools.key_eq {config : FakeStorageDriverConfig} (h : OwnPools config) {k k' : String}
    {p : Option Nat} (hk : mapGet config.Pools k = some p)
    (hk' : mapGet config.Pools k' = some p) : k = k' := by
  obtain ⟨entries, hm, hl⟩ := ne_none_of_mapGet hk
  rw [hm] at hk'
  have h1 : (⟨k, p⟩ : Σ _ : String, Option Nat) ∈ entries.entries := AList.mem_lookup_iff.mp hl
  have h2 : (⟨k', p⟩ : Σ _ : String, Option Nat) ∈ entries.entries :=
    AList.mem_lookup_iff.mp hk'
  have hnd : (entries.entries.map (fun e => e.2)).Nodup := by
    have := h.2
    unfold poolPointers at this
    rw [hm] at this
    exact this
  have := List.inj_on_of_nodup_map hnd h1 h2 rfl
  exact congrArg Sigma.fst this

/-! ## Bytes in use -/

theorem liveBytes_insert (vols : GoMap FakeVolume) (name : String) (v : FakeVolume) (p : String)
    (h : vols.lookup name = none) :
    liveBytes (some (vols.insert name v)) p = bytesIn v p + liveBytes (some vols) p := by
  have hn : name ∉ vols := AList.lookup_eq_none.mp h
  unfold liveBytes bytesIn mapEntries
  simp only []
  rw [AList.insert_entries_of_neg hn]
  by_cases hp : v.PoolName = p <;> simp [List.filter_cons, hp]

theorem liveBytes_erase (vols : GoMap FakeVolume) (name : String) (v : FakeVolume) (p : String)
    (h : vols.lookup name = some v) :
    liveBytes (some (vols.erase name)) p + bytesIn v p = liveBytes (some vols) p := by
  obtain ⟨l, nd⟩ := vols
  simp only [AList.erase, AList.lookup, liveBytes, mapEntries] at h ⊢
  clear nd
  induction l with
  | nil => simp at h
  | cons x l ih =>
    obtain ⟨a, b⟩ := x
    by_cases hk : name = a
    · subst hk
      simp at h
      subst h
      simp [bytesIn, List.filter_cons]
      by_cases hp : b.PoolName = p <;> simp [hp]
      omega
    · rw [List.kerase_cons_ne hk]
      rw [dlookup_cons_of_ne _ _ hk] at h
      have := ih h
      by_cases hp : b.PoolName = p <;> simp [List.filter_cons, hp] <;> omega

theorem size_le_liveBytes (vols : GoMap FakeVolume) (name : String) (v : FakeVolume)
    (h : vols.lookup name = some v) : v.SizeBytes ≤ liveBytes (some vols) v.PoolName := by
  have := liveBytes_erase vols name v v.PoolName h
  simp [bytesIn] at this
  omega

/-! ## What each operation does, branch by branch -/

theorem Create_no_pool_option (d : FakeStorageDriver Offer) (name : String) (sizeBytes : Nat)
    (opts : GoMap String) (hopt : opts.lookup FakePoolAttribute = none) :
    Create d name sizeBytes opts
      = (d, .returned (some (.noPoolSpecified FakePoolAttribute))) := by
  unfold Create
  simp only [hopt]

theorem Create_pool_missing (d : FakeStorageDriver Offer) (name : String) (sizeBytes : Nat)
    (opts : GoMap String) {poolName : String}
    (hopt : opts.lookup FakePoolAttribute = some poolName)
    (hpool : mapGet d.Config.Pools poolName = none) :
    Create d name sizeBytes opts = (d, .returned (some (.couldNotFindPool none))) := by
  unfold Create
  simp only [hopt, hpool]

theorem Create_exists (d : FakeStorageDriver Offer) (name : String) (sizeBytes : Nat)
    (opts : GoMap String) {poolName : String} {pool : Option Nat} {volume : FakeVolume}
    (hopt : opts.lookup FakePoolAttribute = some poolName)
    (hpool : mapGet d.Config.Pools poolName = some pool)
    (hvol : mapGet d.Volumes name = some volume) :
    Create d name sizeBytes opts = (d, .returned (some (.volumeAlreadyExists name))) := by
  unfold Create
  simp only [hopt, hpool, hvol]
  simp

theorem Create_nil_pool (d : FakeStorageDriver Offer) (name : String) (sizeBytes : Nat)
    (opts : GoMap String) {poolName : String}
    (hopt : opts.lookup FakePoolAttribute = some poolName)
    (hpool : mapGet d.Config.Pools poolName = some none)
    (hfree : mapGet d.Volumes name = none) :
    Create d name sizeBytes opts = (d, .panicked) := by
  unfold Create
  simp only [hopt, hpool, hfree]
  simp

theorem Create_too_large (d : FakeStorageDriver Offer) (name : String) (sizeBytes : Nat)
    (opts : GoMap String) {poolName : String} {addr : Nat}
    (hopt : opts.lookup FakePoolAttribute = some poolName)
    (hpool : mapGet d.Config.Pools poolName = some (some addr))
    (hfree : mapGet d.Volumes name = none) (hsize : sizeBytes > (d.PoolAt addr).Bytes) :
    Create d name sizeBytes opts
      = (d, .returned (some (.volumeTooLarge sizeBytes (d.PoolAt addr).Bytes poolName))) := by
  unfold Create
  simp only [hopt, hpool, hfree]
  simp [hsize]

theorem Create_nil_volumes (d : FakeStorageDriver Offer) (name : String) (sizeBytes : Nat)
    (opts : GoMap String) {poolName : String} {addr : Nat}
    (hopt : opts.lookup FakePoolAttribute = some poolName)
    (hpool : mapGet d.Config.Pools poolName = some (some addr))
    (hsize : sizeBytes ≤ (d.PoolAt addr).Bytes) (hvols : d.Volumes = none) :
    Create d name sizeBytes opts = (d, .panicked) := by
  have hfree : mapGet d.Volumes name = none := by rw [hvols]; rfl
  unfold Create
  simp only [hopt, hpool, hfree]
  simp [Nat.not_lt.mpr hsize, hvols]

theorem Create_nil_ledger (d : FakeStorageDriver Offer) (name : String) (sizeBytes : Nat)
    (opts : GoMap String) {poolName : String} {addr : Nat} {volumes : GoMap FakeVolume}
    (hopt : opts.lookup FakePoolAttribute = some poolName)
    (hpool : mapGet d.Config.Pools poolName = some (some addr))
    (hfree : mapGet d.Volumes name = none)
    (hsize : sizeBytes ≤ (d.PoolAt addr).Bytes) (hvols : d.Volumes = some volumes)
    (hdes : d.DestroyedVolumes = none) :
    Create d name sizeBytes opts
      = ({ d with Volumes := some (volumes.insert name
             { Name := name, PoolName := poolName, SizeBytes := sizeBytes }) }, .panicked) := by
  unfold Create
  simp only [hopt, hpool, hfree]
  simp [Nat.not_lt.mpr hsize, hvols, hdes]

theorem Create_ok (d : FakeStorageDriver Offer) (name : String) (sizeBytes : Nat)
    (opts : GoMap String) {poolName : String} {addr : Nat} {volumes : GoMap FakeVolume}
    {destroyed : GoMap Bool}
    (hopt : opts.lookup FakePoolAttribute = some poolName)
    (hpool : mapGet d.Config.Pools poolName = some (some addr))
    (hfree : mapGet d.Volumes name = none)
    (hsize : sizeBytes ≤ (d.PoolAt addr).Bytes) (hvols : d.Volumes = some volumes)
    (hdes : d.DestroyedVolumes = some destroyed) :
    Create d name sizeBytes opts
      = ({ Config := d.Config
           Volumes := some (volumes.insert name
             { Name := name, PoolName := poolName, SizeBytes := sizeBytes })
           DestroyedVolumes := some (destroyed.insert name false)
           PoolAt := setPoolBytes d.PoolAt addr (subUint64 (d.PoolAt addr).Bytes sizeBytes) },
         .returned none) := by
  unfold Create
  simp only [hopt, hpool, hfree]
  simp [Nat.not_lt.mpr hsize, hvols, hdes]

/-- The outcomes of `Create`: nothing written, the volume written before a panic on the
nil record of destroyed names, or success. -/
theorem Create_cases (d : FakeStorageDriver Offer) (name : String) (sizeBytes : Nat)
    (opts : GoMap String) :
    ((Create d name sizeBytes opts).1 = d ∧ (Create d name sizeBytes opts).2 ≠ .returned none) ∨
    (∃ poolName addr volumes, opts.lookup FakePoolAttribute = some poolName ∧
      mapGet d.Config.Pools poolName = some (some addr) ∧ mapGet d.Volumes name = none ∧
      sizeBytes ≤ (d.PoolAt addr).Bytes ∧ d.Volumes = some volumes ∧
      d.DestroyedVolumes = none ∧
      Create d name sizeBytes opts
        = ({ d with Volumes := some (volumes.insert name
               { Name := name, PoolName := poolName, SizeBytes := sizeBytes }) }, .panicked)) ∨
    (∃ poolName addr volumes destroyed, opts.lookup FakePoolAttribute = some poolName ∧
      mapGet d.Config.Pools poolName = some (some addr) ∧ mapGet d.Volumes name = none ∧
      sizeBytes ≤ (d.PoolAt addr).Bytes ∧ d.Volumes = some volumes ∧
      d.DestroyedVolumes = some destroyed ∧
      Create d name sizeBytes opts
        = ({ Config := d.Config
             Volumes := some (volumes.insert name
               { Name := name, PoolName := poolName, SizeBytes := sizeBytes })
             DestroyedVolumes := some (destroyed.insert name false)
             PoolAt := setPoolBytes d.PoolAt addr
               (subUint64 (d.PoolAt addr).Bytes sizeBytes) }, .returned none)) := by
  cases hopt : opts.lookup FakePoolAttribute with
  | none =>
    left
    rw [Create_no_pool_option d name sizeBytes opts hopt]
    simp
  | some poolName =>
    cases hpool : mapGet d.Config.Pools poolName with
    | none =>
      left
      rw [Create_pool_missing d name sizeBytes opts hopt hpool]
      simp
    | some pool =>
      cases hvol : mapGet d.Volumes name with
      | some volume =>
        left
        rw [Create_exists d name sizeBytes opts hopt hpool hvol]
        simp
      | none =>
        cases pool with
        | none =>
          left
          rw [Create_nil_pool d name sizeBytes opts hopt hpool hvol]
          simp
        | some addr =>
          by_cases hsize : sizeBytes > (d.PoolAt addr).Bytes
          · left
            rw [Create_too_large d name sizeBytes opts hopt hpool hvol hsize]
            simp
          · have hle : sizeBytes ≤ (d.PoolAt addr).Bytes := Nat.le_of_not_lt hsize
            cases hvols : d.Volumes with
            | none =>
              left
              rw [Create_nil_volumes d name sizeBytes opts hopt hpool hle hvols]
              simp
            | some volumes =>
              cases hdes : d.DestroyedVolumes with
              | none =>
                right; left
                refine ⟨poolName, addr, volumes, rfl, hpool, rfl, hle, rfl, rfl, ?_⟩
                rw [Create_nil_ledger d name sizeBytes opts hopt hpool hvol hle hvols hdes, hdes]
              | some destroyed =>
                right; right
                exact ⟨poolName, addr, volumes, destroyed, rfl, hpool, rfl, hle, rfl, rfl,
                  Create_ok d name sizeBytes opts hopt hpool hvol hle hvols hdes⟩

theorem Create_eq_of_ok (d : FakeStorageDriver Offer) (name : String) (sizeBytes : Nat)
    (opts : GoMap String) (h : (Create d name sizeBytes opts).2 = .returned none) :
    ∃ poolName addr volumes destroyed, opts.lookup FakePoolAttribute = some poolName ∧
      mapGet d.Config.Pools poolName = some (some addr) ∧ mapGet d.Volumes name = none ∧
      sizeBytes ≤ (d.PoolAt addr).Bytes ∧ d.Volumes = some volumes ∧
      d.DestroyedVolumes = some destroyed ∧
      (Create d name sizeBytes opts).1 =
        { Config := d.Config
          Volumes := some (volumes.insert name
            { Name := name, PoolName := poolName, SizeBytes := sizeBytes })
          DestroyedVolumes := some (destroyed.insert name false)
          PoolAt := setPoolBytes d.PoolAt addr (subUint64 (d.PoolAt addr).Bytes sizeBytes) } := by
  rcases Create_cases d name sizeBytes opts with ⟨_, hne⟩ | ⟨_, _, _, _, _, _, _, _, _, heq⟩ |
    ⟨poolName, addr, volumes, destroyed, hopt, hpool, hfree, hsize, hvols, hdes, heq⟩
  · exact absurd h hne
  · rw [heq] at h
    simp at h
  · exact ⟨poolName, addr, volumes, destroyed, hopt, hpool, hfree, hsize, hvols, hdes, by rw [heq]⟩

theorem Create_eq_of_error (d : FakeStorageDriver Offer) (name : String) (sizeBytes : Nat)
    (opts : GoMap String) (e : FakeError)
    (h : (Create d name sizeBytes opts).2 = .returned (some e)) :
    (Create d name sizeBytes opts).1 = d := by
  rcases Create_cases d name sizeBytes opts with ⟨heq, _⟩ | ⟨_, _, _, _, _, _, _, _, _, heq⟩ |
    ⟨_, _, _, _, _, _, _, _, _, _, heq⟩
  · exact heq
  · rw [heq] at h
    simp at h
  · rw [heq] at h
    simp at h

theorem Create_eq_of_not_ok (d : FakeStorageDriver Offer) (name : String) (sizeBytes : Nat)
    (opts : GoMap String) (hl : d.DestroyedVolumes ≠ none)
    (h : (Create d name sizeBytes opts).2 ≠ .returned none) :
    (Create d name sizeBytes opts).1 = d := by
  rcases Create_cases d name sizeBytes opts with ⟨heq, _⟩ | ⟨_, _, _, _, _, _, _, _, hdes, _⟩ |
    ⟨_, _, _, _, _, _, _, _, _, _, heq⟩
  · exact heq
  · exact absurd hdes hl
  · rw [heq] at h
    simp at h

theorem CreateClone_source_missing (d : FakeStorageDriver Offer) (name source snapshot : String)
    (opts : GoMap String) (hsrc : mapGet d.Volumes source = none) :
    CreateClone d name source snapshot opts
      = (d, .returned (some (.sourceVolumeNotFound name))) := by
  unfold CreateClone
  simp only [hsrc]

theorem CreateClone_exists (d : FakeStorageDriver Offer) (name source snapshot : String)
    (opts : GoMap String) {sourceVolume volume : FakeVolume}
    (hsrc : mapGet d.Volumes source = some sourceVolume)
    (hvol : mapGet d.Volumes name = some volume) :
    CreateClone d name source snapshot opts
      = (d, .returned (some (.volumeAlreadyExists name))) := by
  unfold CreateClone
  simp only [hsrc, hvol]
  simp

theorem CreateClone_pool_missing (d : FakeStorageDriver Offer) (name source snapshot : String)
    (opts : GoMap String) {sourceVolume : FakeVolume}
    (hsrc : mapGet d.Volumes source = some sourceVolume)
    (hfree : mapGet d.Volumes name = none)
    (hpool : mapGet d.Config.Pools sourceVolume.PoolName = none) :
    CreateClone d name source snapshot opts
      = (d, .returned (some (.couldNotFindPool none))) := by
  unfold CreateClone
  simp only [hsrc, hfree, hpool]
  simp

theorem CreateClone_nil_pool (d : FakeStorageDriver Offer) (name source snapshot : String)
    (opts : GoMap String) {sourceVolume : FakeVolume}
    (hsrc : mapGet d.Volumes source = some sourceVolume)
    (hfree : mapGet d.Volumes name = none)
    (hpool : mapGet d.Config.Pools sourceVolume.PoolName = some none) :
    CreateClone d name source snapshot opts = (d, .panicked) := by
  unfold CreateClone
  simp only [hsrc, hfree, hpool]
  simp

theorem CreateClone_too_large (d : FakeStorageDriver Offer) (name source snapshot : String)
    (opts : GoMap String) {sourceVolume : FakeVolume} {addr : Nat}
    (hsrc : mapGet d.Volumes source = some sourceVolume)
    (hfree : mapGet d.Volumes name = none)
    (hpool : mapGet d.Config.Pools sourceVolume.PoolName = some (some addr))
    (hsize : sourceVolume.SizeBytes > (d.PoolAt addr).Bytes) :
    CreateClone d name source snapshot opts
      = (d, .returned (some (.cloneTooLarge sourceVolume.SizeBytes (d.PoolAt addr).Bytes
          sourceVolume.PoolName))) := by
  unfold CreateClone
  simp only [hsrc, hfree, hpool]
  simp [hsize]

theorem CreateClone_nil_ledger (d : FakeStorageDriver Offer) (name source snapshot : String)
    (opts : GoMap String) {sourceVolume : FakeVolume} {addr : Nat}
    {volumes : GoMap FakeVolume}
    (hsrc : mapGet d.Volumes source = some sourceVolume)
    (hfree : mapGet d.Volumes name = none)
    (hpool : mapGet d.Config.Pools sourceVolume.PoolName = some (some addr))
    (hsize : sourceVolume.SizeBytes ≤ (d.PoolAt addr).Bytes)
    (hvols : d.Volumes = some volumes) (hdes : d.DestroyedVolumes = none) :
    CreateClone d name source snapshot opts
      = ({ d with Volumes := some (volumes.insert name
             { Name := name, PoolName := sourceVolume.PoolName,
               SizeBytes := sourceVolume.SizeBytes }) }, .panicked) := by
  unfold CreateClone
  simp only [hsrc, hfree, hpool]
  simp [Nat.not_lt.mpr hsize, hvols, hdes]

theorem CreateClone_ok (d : FakeStorageDriver Offer) (name source snapshot : String)
    (opts : GoMap String) {sourceVolume : FakeVolume} {addr : Nat}
    {volumes : GoMap FakeVolume} {destroyed : GoMap Bool}
    (hsrc : mapGet d.Volumes source = some sourceVolume)
    (hfree : mapGet d.Volumes name = none)
    (hpool : mapGet d.Config.Pools sourceVolume.PoolName = some (some addr))
    (hsize : sourceVolume.SizeBytes ≤ (d.PoolAt addr).Bytes)
    (hvols : d.Volumes = some volumes) (hdes : d.DestroyedVolumes = some destroyed) :
    CreateClone d name source snapshot opts
      = ({ Config := d.Config
           Volumes := some (volumes.insert name
             { Name := name, PoolName := sourceVolume.PoolName,
               SizeBytes := sourceVolume.SizeBytes })
           DestroyedVolumes := some (destroyed.insert name false)
           PoolAt := setPoolBytes d.PoolAt addr
             (subUint64 (d.PoolAt addr).Bytes sourceVolume.SizeBytes) }, .returned none) := by
  unfold CreateClone
  simp only [hsrc, hfree, hpool]
  simp [Nat.not_lt.mpr hsize, hvols, hdes]

/-- The outcomes of `CreateClone`: nothing written, the volume written before a panic on
the nil record of destroyed names, or success. -/
theorem CreateClone_cases (d : FakeStorageDriver Offer) (name source snapshot : String)
    (opts : GoMap String) :
    ((CreateClone d name source snapshot opts).1 = d ∧
      (CreateClone d name source snapshot opts).2 ≠ .returned none) ∨
    (∃ sourceVolume addr volumes, mapGet d.Volumes source = some sourceVolume ∧
      mapGet d.Volumes name = none ∧
      mapGet d.Config.Pools sourceVolume.PoolName = some (some addr) ∧
      sourceVolume.SizeBytes ≤ (d.PoolAt addr).Bytes ∧ d.Volumes = some volumes ∧
      d.DestroyedVolumes = none ∧
      CreateClone d name source snapshot opts
        = ({ d with Volumes := some (volumes.insert name
               { Name := name, PoolName := sourceVolume.PoolName,
                 SizeBytes := sourceVolume.SizeBytes }) }, .panicked)) ∨
    (∃ sourceVolume addr volumes destroyed, mapGet d.Volumes source = some sourceVolume ∧
      mapGet d.Volumes name = none ∧
      mapGet d.Config.Pools sourceVolume.PoolName = some (some addr) ∧
      sourceVolume.SizeBytes ≤ (d.PoolAt addr).Bytes ∧ d.Volumes = some volumes ∧
      d.DestroyedVolumes = some destroyed ∧
      CreateClone d name source snapshot opts
        = ({ Config := d.Config
             Volumes := some (volumes.insert name
               { Name := name, PoolName := sourceVolume.PoolName,
                 SizeBytes := sourceVolume.SizeBytes })
             DestroyedVolumes := some (destroyed.insert name false)
             PoolAt := setPoolBytes d.PoolAt addr
               (subUint64 (d.PoolAt addr).Bytes sourceVolume.SizeBytes) },
            .returned none)) := by
  cases hsrc : mapGet d.Volumes source with
  | none =>
    left
    rw [CreateClone_source_missing d name source snapshot opts hsrc]
    simp
  | some sourceVolume =>
    cases hvol : mapGet d.Volumes name with
    | some volume =>
      left
      rw [CreateClone_exists d name source snapshot opts hsrc hvol]
      simp
    | none =>
      cases hpool : mapGet d.Config.Pools sourceVolume.PoolName with
      | none =>
        left
        rw [CreateClone_pool_missing d name source snapshot opts hsrc hvol hpool]
        simp
      | some pool =>
        cases pool with
        | none =>
          left
          rw [CreateClone_nil_pool d name source snapshot opts hsrc hvol hpool]
          simp
        | some addr =>
          by_cases hsize : sourceVolume.SizeBytes > (d.PoolAt addr).Bytes
          · left
            rw [CreateClone_too_large d name source snapshot opts hsrc hvol hpool hsize]
            simp
          · have hle : sourceVolume.SizeBytes ≤ (d.PoolAt addr).Bytes := Nat.le_of_not_lt hsize
            obtain ⟨volumes, hvols, _⟩ := ne_none_of_mapGet hsrc
            by_cases hdes : d.DestroyedVolumes = none
            · right; left
              exact ⟨sourceVolume, addr, volumes, rfl, rfl, hpool, hle, hvols, hdes,
                CreateClone_nil_ledger d name source snapshot opts hsrc hvol hpool hle hvols hdes⟩
            · obtain ⟨destroyed, hdes'⟩ := Option.ne_none_iff_exists'.mp hdes
              right; right
              exact ⟨sourceVolume, addr, volumes, destroyed, rfl, rfl, hpool, hle, hvols, hdes',
                CreateClone_ok d name source snapshot opts hsrc hvol hpool hle hvols hdes'⟩

theorem CreateClone_eq_of_ok (d : FakeStorageDriver Offer) (name source snapshot : String)
    (opts : GoMap String) (h : (CreateClone d name source snapshot opts).2 = .returned none) :
    ∃ sourceVolume addr volumes destroyed, mapGet d.Volumes source = some sourceVolume ∧
      mapGet d.Volumes name = none ∧
      mapGet d.Config.Pools sourceVolume.PoolName = some (some addr) ∧
      sourceVolume.SizeBytes ≤ (d.PoolAt addr).Bytes ∧ d.Volumes = some volumes ∧
      d.DestroyedVolumes = some destroyed ∧
      (CreateClone d name source snapshot opts).1 =
        { Config := d.Config
          Volumes := some (volumes.insert name
            { Name := name, PoolName := sourceVolume.PoolName,
              SizeBytes := sourceVolume.SizeBytes })
          DestroyedVolumes := some (destroyed.insert name false)
          PoolAt := setPoolBytes d.PoolAt addr
            (subUint64 (d.PoolAt addr).Bytes sourceVolume.SizeBytes) } := by
  rcases CreateClone_cases d name source snapshot opts with ⟨_, hne⟩ |
    ⟨_, _, _, _, _, _, _, _, _, heq⟩ |
    ⟨sv, addr, volumes, destroyed, hsrc, hfree, hpool, hsize, hvols, hdes, heq⟩
  · exact absurd h hne
  · rw [heq] at h
    simp at h
  · exact ⟨sv, addr, volumes, destroyed, hsrc, hfree, hpool, hsize, hvols, hdes, by rw [heq]⟩

theorem CreateClone_eq_of_error (d : FakeStorageDriver Offer) (name source snapshot : String)
    (opts : GoMap String) (e : FakeError)
    (h : (CreateClone d name source snapshot opts).2 = .returned (some e)) :
    (CreateClone d name source snapshot opts).1 = d := by
  rcases CreateClone_cases d name source snapshot opts with ⟨heq, _⟩ |
    ⟨_, _, _, _, _, _, _, _, _, heq⟩ | ⟨_, _, _, _, _, _, _, _, _, _, heq⟩
  · exact heq
  · rw [heq] at h
    simp at h
  · rw [heq] at h
    simp at h

theorem CreateClone_eq_of_not_ok (d : FakeStorageDriver Offer) (name source snapshot : String)
    (opts : GoMap String) (hl : d.DestroyedVolumes ≠ none)
    (h : (CreateClone d name source snapshot opts).2 ≠ .returned none) :
    (CreateClone d name source snapshot opts).1 = d := by
  rcases CreateClone_cases d name source snapshot opts with ⟨heq, _⟩ |
    ⟨_, _, _, _, _, _, _, _, hdes, _⟩ | ⟨_, _, _, _, _, _, _, _, _, _, heq⟩
  · exact heq
  · exact absurd hdes hl
  · rw [heq] at h
    simp at h

theorem Destroy_nil_ledger (d : FakeStorageDriver Offer) (name : String)
    (hdes : d.DestroyedVolumes = none) : Destroy d name = (d, .panicked) := by
  unfold Destroy
  simp only [hdes]

theorem Destroy_absent_eq (d : FakeStorageDriver Offer) (name : String) {destroyed : GoMap Bool}
    (hdes : d.DestroyedVolumes = some destroyed) (hvol : mapGet d.Volumes name = none) :
    Destroy d name
      = ({ d with DestroyedVolumes := some (destroyed.insert name true) }, .returned none) := by
  unfold Destroy
  simp only [hdes, hvol]

theorem Destroy_orphan_eq (d : FakeStorageDriver Offer) (name : String) {destroyed : GoMap Bool}
    {volume : FakeVolume} (hdes : d.DestroyedVolumes = some destroyed)
    (hvol : mapGet d.Volumes name = some volume)
    (hpool : mapGet d.Config.Pools volume.PoolName = none) :
    Destroy d name
      = ({ d with DestroyedVolumes := some (destroyed.insert name true) },
          .returned (some (.couldNotFindPool (some volume.PoolName)))) := by
  unfold Destroy
  simp only [hdes, hvol, hpool]

theorem Destroy_nil_pool (d : FakeStorageDriver Offer) (name : String) {destroyed : GoMap Bool}
    {volume : FakeVolume} (hdes : d.DestroyedVolumes = some destroyed)
    (hvol : mapGet d.Volumes name = some volume)
    (hpool : mapGet d.Config.Pools volume.PoolName = some none) :
    Destroy d name
      = ({ d with DestroyedVolumes := some (destroyed.insert name true) }, .panicked) := by
  unfold Destroy
  simp only [hdes, hvol, hpool]

theorem Destroy_live_eq (d : FakeStorageDriver Offer) (name : String) {destroyed : GoMap Bool}
    {volume : FakeVolume} {addr : Nat} {volumes : GoMap FakeVolume}
    (hdes : d.DestroyedVolumes = some destroyed)
    (hvol : mapGet d.Volumes name = some volume)
    (hpool : mapGet d.Config.Pools volume.PoolName = some (some addr))
    (hvols : d.Volumes = some volumes) :
    Destroy d name
      = ({ Config := d.Config
           Volumes := some (volumes.erase name)
           DestroyedVolumes := some (destroyed.insert name true)
           PoolAt := setPoolBytes d.PoolAt addr
             (addUint64 (d.PoolAt addr).Bytes volume.SizeBytes) }, .returned none) := by
  unfold Destroy
  simp only [hdes, hvol, hpool]
  simp [hvols]

/-- What `Destroy` does to the record of destroyed names: a panic on the nil record leaves
the driver as it was; otherwise the entry of the name is set, in every outcome. -/
theorem Destroy_ledger (d : FakeStorageDriver Offer) (name : String) :
    (d.DestroyedVolumes = none ∧ Destroy d name = (d, .panicked)) ∨
    (∃ destroyed, d.DestroyedVolumes = some destroyed ∧
      (Destroy d name).1.DestroyedVolumes = some (destroyed.insert name true)) := by
  cases hdes : d.DestroyedVolumes with
  | none => exact Or.inl ⟨rfl, Destroy_nil_ledger d name hdes⟩
  | some destroyed =>
    right
    refine ⟨destroyed, rfl, ?_⟩
    cases hvol : mapGet d.Volumes name with
    | none => rw [Destroy_absent_eq d name hdes hvol]
    | some volume =>
      cases hpool : mapGet d.Config.Pools volume.PoolName with
      | none => rw [Destroy_orphan_eq d name hdes hvol hpool]
      | some pool =>
        cases pool with
        | none => rw [Destroy_nil_pool d name hdes hvol hpool]
        | some addr =>
          obtain ⟨volumes, hvols, _⟩ := ne_none_of_mapGet hvol
          rw [Destroy_live_eq d name hdes hvol hpool hvols]

/-! ## Where a call can panic -/

theorem Create_panic (d : FakeStorageDriver Offer) (name : String) (sizeBytes : Nat)
    (opts : GoMap String) (h : (Create d name sizeBytes opts).2 = .panicked) :
    (∃ poolName, opts.lookup FakePoolAttribute = some poolName ∧
      mapGet d.Config.Pools poolName = some none) ∨
    d.Volumes = none ∨ d.DestroyedVolumes = none := by
  cases hopt : opts.lookup FakePoolAttribute with
  | none =>
    rw [Create_no_pool_option d name sizeBytes opts hopt] at h
    simp at h
  | some poolName =>
    cases hpool : mapGet d.Config.Pools poolName with
    | none =>
      rw [Create_pool_missing d name sizeBytes opts hopt hpool] at h
      simp at h
    | some pool =>
      cases hvol : mapGet d.Volumes name with
      | some volume =>
        rw [Create_exists d name sizeBytes opts hopt hpool hvol] at h
        simp at h
      | none =>
        cases pool with
        | none => exact Or.inl ⟨poolName, rfl, hpool⟩
        | some addr =>
          by_cases hsize : sizeBytes > (d.PoolAt addr).Bytes
          · rw [Create_too_large d name sizeBytes opts hopt hpool hvol hsize] at h
            simp at h
          · have hle : sizeBytes ≤ (d.PoolAt addr).Bytes := Nat.le_of_not_lt hsize
            by_cases hvols : d.Volumes = none
            · exact Or.inr (Or.inl hvols)
            · by_cases hdes : d.DestroyedVolumes = none
              · exact Or.inr (Or.inr hdes)
              · obtain ⟨volumes, hvols'⟩ := Option.ne_none_iff_exists'.mp hvols
                obtain ⟨destroyed, hdes'⟩ := Option.ne_none_iff_exists'.mp hdes
                rw [Create_ok d name sizeBytes opts hopt hpool hvol hle hvols' hdes'] at h
                simp at h

theorem CreateClone_panic (d : FakeStorageDriver Offer) (name source snapshot : String)
    (opts : GoMap String) (h : (CreateClone d name source snapshot opts).2 = .panicked) :
    (∃ sourceVolume, mapGet d.Volumes source = some sourceVolume ∧
      mapGet d.Config.Pools sourceVolume.PoolName = some none) ∨
    d.DestroyedVolumes = none := by
  cases hsrc : mapGet d.Volumes source with
  | none =>
    rw [CreateClone_source_missing d name source snapshot opts hsrc] at h
    simp at h
  | some sourceVolume =>
    cases hvol : mapGet d.Volumes name with
    | some volume =>
      rw [CreateClone_exists d name source snapshot opts hsrc hvol] at h
      simp at h
    | none =>
      cases hpool : mapGet d.Config.Pools sourceVolume.PoolName with
      | none =>
        rw [CreateClone_pool_missing d name source snapshot opts hsrc hvol hpool] at h
        simp at h
      | some pool =>
        cases pool with
        | none => exact Or.inl ⟨sourceVolume, rfl, hpool⟩
        | some addr =>
          by_cases hsize : sourceVolume.SizeBytes > (d.PoolAt addr).Bytes
          · rw [CreateClone_too_large d name source snapshot opts hsrc hvol hpool hsize] at h
            simp at h
          · have hle : sourceVolume.SizeBytes ≤ (d.PoolAt addr).Bytes := Nat.le_of_not_lt hsize
            obtain ⟨volumes, hvols, _⟩ := ne_none_of_mapGet hsrc
            by_cases hdes : d.DestroyedVolumes = none
            · exact Or.inr hdes
            · obtain ⟨destroyed, hdes'⟩ := Option.ne_none_iff_exists'.mp hdes
              rw [CreateClone_ok d name source snapshot opts hsrc hvol hpool hle hvols hdes'] at h
              simp at h

theorem Destroy_panic (d : FakeStorageDriver Offer) (name : String)
    (h : (Destroy d name).2 = .panicked) :
    d.DestroyedVolumes = none ∨
    ∃ volume, mapGet d.Volumes name = some volume ∧
      mapGet d.Config.Pools volume.PoolName = some none := by
  by_cases hdes : d.DestroyedVolumes = none
  · exact Or.inl hdes
  · obtain ⟨destroyed, hdes'⟩ := Option.ne_none_iff_exists'.mp hdes
    cases hvol : mapGet d.Volumes name with
    | none =>
      rw [Destroy_absent_eq d name hdes' hvol] at h
      simp at h
    | some volume =>
      cases hpool : mapGet d.Config.Pools volume.PoolName with
      | none =>
        rw [Destroy_orphan_eq d name hdes' hvol hpool] at h
        simp at h
      | some pool =>
        cases pool with
        | none => exact Or.inr ⟨volume, rfl, hpool⟩
        | some addr =>
          obtain ⟨volumes, hvols, _⟩ := ne_none_of_mapGet hvol
          rw [Destroy_live_eq d name hdes' hvol hpool hvols] at h
          simp at h

/-! ## Capacity conservation -/

theorem Conserved_new (cfg : FakeStorageDriverConfig) (poolAt : Nat → FakeStoragePool Offer) :
    Conserved cfg poolAt (NewFakeStorageDriver cfg poolAt) := by
  refine ⟨rfl, by simp [NewFakeStorageDriver], by simp [NewFakeStorageDriver], ?_⟩
  intro k addr _
  simp [NewFakeStorageDriver, liveBytes, mapEntries]

theorem Conserved_bytes_lt {cfg : FakeStorageDriverConfig}
    {poolAt : Nat → FakeStoragePool Offer} {d : FakeStorageDriver Offer}
    (hrange : PoolsInRange (NewFakeStorageDriver cfg poolAt)) (h : Conserved cfg poolAt d)
    {k : String} {addr : Nat} (hk : mapGet d.Config.Pools k = some (some addr)) :
    (d.PoolAt addr).Bytes + liveBytes d.Volumes k < uint64Size := by
  rw [h.1] at hk
  have hlt : (poolAt addr).Bytes < uint64Size :=
    bytes_lt_of_mapGet (d := NewFakeStorageDriver cfg poolAt) hrange hk
  have := h.2.2.2 k addr hk
  omega

theorem Conserved_set_ledger {cfg : FakeStorageDriverConfig}
    {poolAt : Nat → FakeStoragePool Offer} {d : FakeStorageDriver Offer}
    (h : Conserved cfg poolAt d) (ledger : GoMap Bool) :
    Conserved cfg poolAt { d with DestroyedVolumes := some ledger } :=
  ⟨h.1, h.2.1, by simp, h.2.2.2⟩

/-- Allocating `size` bytes of the pool under key `q` to a new volume `name` keeps
conservation, when every key holds a pool of its own. -/
theorem Conserved_alloc {cfg : FakeStorageDriverConfig} {poolAt : Nat → FakeStoragePool Offer}
    {d : FakeStorageDriver Offer} (hown : OwnPools cfg)
    (hrange : PoolsInRange (NewFakeStorageDriver cfg poolAt)) (h : Conserved cfg poolAt d)
    {name q : String} {size addr : Nat} {volumes : GoMap FakeVolume} (ledger : GoMap Bool)
    (hq : mapGet d.Config.Pools q = some (some addr)) (hvols : d.Volumes = some volumes)
    (hn : mapGet d.Volumes name = none) (hs : size ≤ (d.PoolAt addr).Bytes) :
    Conserved cfg poolAt
      { Config := d.Config
        Volumes := some (volumes.insert name { Name := name, PoolName := q, SizeBytes := size })
        DestroyedVolumes := some ledger
        PoolAt := setPoolBytes d.PoolAt addr (subUint64 (d.PoolAt addr).Bytes size) } := by
  have hlt := Conserved_bytes_lt hrange h hq
  have hsub : subUint64 (d.PoolAt addr).Bytes size = (d.PoolAt addr).Bytes - size :=
    subUint64_eq hs (by omega)
  have hfree : volumes.lookup name = none := by
    rw [hvols] at hn
    exact hn
  refine ⟨h.1, by simp, by simp, ?_⟩
  intro k a hk
  have hc := h.2.2.2 k a hk
  rw [hvols] at hc
  simp only []
  rw [liveBytes_insert _ _ _ _ hfree]
  rw [h.1] at hq
  by_cases hkq : k = q
  · subst hkq
    rw [hq] at hk
    cases hk
    rw [hvols] at hlt
    simp only [setPoolBytes_self, bytesIn, hsub, if_true]
    omega
  · have hne : a ≠ addr := by
      intro heq
      subst heq
      exact hkq (hown.key_eq hk hq)
    rw [setPoolBytes_other _ _ hne]
    simp only [bytesIn, Ne.symm hkq, if_false]
    omega

/-- Destroying the live volume `name` of the pool at `addr` keeps conservation, when every
key holds a pool of its own. -/
theorem Conserved_free {cfg : FakeStorageDriverConfig} {poolAt : Nat → FakeStoragePool Offer}
    {d : FakeStorageDriver Offer} (hown : OwnPools cfg)
    (hrange : PoolsInRange (NewFakeStorageDriver cfg poolAt)) (h : Conserved cfg poolAt d)
    {name : String} {volume : FakeVolume} {addr : Nat} {volumes : GoMap FakeVolume}
    (ledger : GoMap Bool) (hvols : d.Volumes = some volumes)
    (hv : mapGet d.Volumes name = some volume)
    (hp : mapGet d.Config.Pools volume.PoolName = some (some addr)) :
    Conserved cfg poolAt
      { Config := d.Config
        Volumes := some (volumes.erase name)
        DestroyedVolumes := some ledger
        PoolAt := setPoolBytes d.PoolAt addr
          (addUint64 (d.PoolAt addr).Bytes volume.SizeBytes) } := by
  have hlt := Conserved_bytes_lt hrange h hp
  have hlive : volumes.lookup name = some volume := by
    rw [hvols] at hv
    exact hv
  have hle := size_le_liveBytes volumes name volume hlive
  rw [hvols] at hlt
  have hadd : addUint64 (d.PoolAt addr).Bytes volume.SizeBytes
      = (d.PoolAt addr).Bytes + volume.SizeBytes := addUint64_eq (by omega)
  refine ⟨h.1, by simp, by simp, ?_⟩
  intro k a hk
  have hc := h.2.2.2 k a hk
  rw [hvols] at hc
  have her := liveBytes_erase volumes name volume k hlive
  simp only []
  rw [h.1] at hp
  by_cases hkq : k = volume.PoolName
  · subst hkq
    rw [hp] at hk
    cases hk
    simp only [setPoolBytes_self, hadd]
    simp only [bytesIn, if_true] at her
    omega
  · have hne : a ≠ addr := by
      intro heq
      subst heq
      exact hkq (hown.key_eq hk hp)
    rw [setPoolBytes_other _ _ hne]
    simp only [bytesIn, Ne.symm hkq, if_false] at her
    omega

theorem Conserved_step {cfg : FakeStorageDriverConfig} {poolAt : Nat → FakeStoragePool Offer}
    {d : FakeStorageDriver Offer} (hown : OwnPools cfg)
    (hrange : PoolsInRange (NewFakeStorageDriver cfg poolAt)) (h : Conserved cfg poolAt d)
    (c : Call) : Conserved cfg poolAt (step d c) := by
  cases c with
  | create name sizeBytes opts =>
    simp only [step, call]
    rcases Create_cases d name sizeBytes opts with ⟨heq, _⟩ |
      ⟨_, _, _, _, _, _, _, _, hdes, _⟩ |
      ⟨poolName, addr, volumes, destroyed, _, hpool, hfree, hsize, hvols, _, heq⟩
    · rw [heq]
      exact h
    · exact absurd hdes h.2.2.1
    · rw [heq]
      exact Conserved_alloc hown hrange h _ hpool hvols hfree hsize
  | createClone name source snapshot opts =>
    simp only [step, call]
    rcases CreateClone_cases d name source snapshot opts with ⟨heq, _⟩ |
      ⟨_, _, _, _, _, _, _, _, hdes, _⟩ |
      ⟨sv, addr, volumes, destroyed, _, hfree, hpool, hsize, hvols, _, heq⟩
    · rw [heq]
      exact h
    · exact absurd hdes h.2.2.1
    · rw [heq]
      exact Conserved_alloc hown hrange h _ hpool hvols hfree hsize
  | destroy name =>
    simp only [step, call]
    obtain ⟨destroyed, hdes⟩ := Option.ne_none_iff_exists'.mp h.2.2.1
    cases hvol : mapGet d.Volumes name with
    | none =>
      rw [Destroy_absent_eq d name hdes hvol]
      exact Conserved_set_ledger h _
    | some volume =>
      cases hpool : mapGet d.Config.Pools volume.PoolName with
      | none =>
        rw [Destroy_orphan_eq d name hdes hvol hpool]
        exact Conserved_set_ledger h _
      | some pool =>
        cases pool with
        | none =>
          rw [Destroy_nil_pool d name hdes hvol hpool]
          exact Conserved_set_ledger h _
        | some addr =>
          obtain ⟨volumes, hvols, _⟩ := ne_none_of_mapGet hvol
          rw [Destroy_live_eq d name hdes hvol hpool hvols]
          exact Conserved_free hown hrange h _ hvols hvol hpool

theorem Conserved_run {cfg : FakeStorageDriverConfig} {poolAt : Nat → FakeStoragePool Offer}
    (hown : OwnPools cfg) (hrange : PoolsInRange (NewFakeStorageDriver cfg poolAt))
    (calls : List Call) (d : FakeStorageDriver Offer) (h : Conserved cfg poolAt d) :
    Conserved cfg poolAt (run d calls) := by
  induction calls generalizing d with
  | nil => exact h
  | cons c cs ih => exact ih (step d c) (Conserved_step hown hrange h c)

theorem remaining_eq_some {d : FakeStorageDriver Offer} {p : String} {b : Nat} :
    remaining d p = some b ↔
      ∃ addr, mapGet d.Config.Pools p = some (some addr) ∧ (d.PoolAt addr).Bytes = b := by
  unfold remaining
  constructor
  · intro h
    split at h
    · rename_i addr hp
      exact ⟨addr, hp, by simpa using h⟩
    · simp at h
  · rintro ⟨addr, hp, hb⟩
    rw [hp]
    simp [hb]

/-- C1, as stated, fails: the registry holds pointers, and two keys that hold the same
pointer share one pool. On a fresh driver with the keys "a" and "b" on one pool of 1000
bytes, `Create("v1", 400, {pool: a})` succeeds and leaves 600 under "b" although no live
volume is bound to "b". With a nil pointer under "gold", a `Create` in "gold" panics. -/
theorem shared_pool_not_conserved :
    remaining sharedDriver "b" = some 1000 ∧
    (call sharedDriver (.create "v1" 400 aOpts)).2 = .returned none ∧
    remaining (run sharedDriver [.create "v1" 400 aOpts]) "b" = some 600 ∧
    liveBytes (run sharedDriver [.create "v1" 400 aOpts]).Volumes "b" = 0 ∧
    (call nilPoolDriver (.create "v1" 1 goldOpts)).2 = .panicked := by
  decide

/-- C1, amended. Capacity conservation: on a driver freshly built from a configuration in
which every key of the registry holds a pool of its own (no nil pointer, no pointer under
two keys) with a `uint64` capacity, after every finite sequence of `Create`, `CreateClone`
and `Destroy` calls with any arguments, the configuration is the one the driver started
with, and for every pool of the registry the remaining bytes plus the sizes of the live
volumes bound to its key equal its configured capacity; no further call panics; a further
`Create` or `CreateClone` that succeeds never subtracts more than the pool holds, and a
further `Destroy` of a live volume never carries the pool's bytes past the `uint64`
range. -/
theorem capacity_conservation (cfg : FakeStorageDriverConfig)
    (poolAt : Nat → FakeStoragePool Offer) (hown : OwnPools cfg)
    (hrange : PoolsInRange (NewFakeStorageDriver cfg poolAt)) (calls : List Call) :
    (run (NewFakeStorageDriver cfg poolAt) calls).Config = cfg ∧
    (∀ p capacity, remaining (NewFakeStorageDriver cfg poolAt) p = some capacity →
      ∃ bytes, remaining (run (NewFakeStorageDriver cfg poolAt) calls) p = some bytes ∧
        bytes + liveBytes (run (NewFakeStorageDriver cfg poolAt) calls).Volumes p = capacity) ∧
    (∀ c, (call (run (NewFakeStorageDriver cfg poolAt) calls) c).2 ≠ .panicked) ∧
    (∀ name sizeBytes opts poolName addr,
      (Create (run (NewFakeStorageDriver cfg poolAt) calls) name sizeBytes opts).2
        = .returned none →
      opts.lookup FakePoolAttribute = some poolName →
      mapGet (run (NewFakeStorageDriver cfg poolAt) calls).Config.Pools poolName
        = some (some addr) →
      sizeBytes ≤ ((run (NewFakeStorageDriver cfg poolAt) calls).PoolAt addr).Bytes ∧
      subUint64 ((run (NewFakeStorageDriver cfg poolAt) calls).PoolAt addr).Bytes sizeBytes
        = ((run (NewFakeStorageDriver cfg poolAt) calls).PoolAt addr).Bytes - sizeBytes) ∧
    (∀ name source snapshot opts sourceVolume addr,
      (CreateClone (run (NewFakeStorageDriver cfg poolAt) calls) name source snapshot opts).2
        = .returned none →
      mapGet (run (NewFakeStorageDriver cfg poolAt) calls).Volumes source = some sourceVolume →
      mapGet (run (NewFakeStorageDriver cfg poolAt) calls).Config.Pools sourceVolume.PoolName
        = some (some addr) →
      sourceVolume.SizeBytes
        ≤ ((run (NewFakeStorageDriver cfg poolAt) calls).PoolAt addr).Bytes ∧
      subUint64 ((run (NewFakeStorageDriver cfg poolAt) calls).PoolAt addr).Bytes
          sourceVolume.SizeBytes
        = ((run (NewFakeStorageDriver cfg poolAt) calls).PoolAt addr).Bytes
          - sourceVolume.SizeBytes) ∧
    (∀ name volume addr,
      mapGet (run (NewFakeStorageDriver cfg poolAt) calls).Volumes name = some volume →
      mapGet (run (NewFakeStorageDriver cfg poolAt) calls).Config.Pools volume.PoolName
        = some (some addr) →
      ((run (NewFakeStorageDriver cfg poolAt) calls).PoolAt addr).Bytes + volume.SizeBytes
        < uint64Size ∧
      addUint64 ((run (NewFakeStorageDriver cfg poolAt) calls).PoolAt addr).Bytes
          volume.SizeBytes
        = ((run (NewFakeStorageDriver cfg poolAt) calls).PoolAt addr).Bytes
          + volume.SizeBytes) := by
  have hinv := Conserved_run hown hrange calls _ (Conserved_new cfg poolAt)
  generalize run (NewFakeStorageDriver cfg poolAt) calls = d at hinv
  have hnil : ∀ k, mapGet d.Config.Pools k ≠ some none := by
    intro k hk
    rw [hinv.1] at hk
    obtain ⟨addr, ha⟩ := hown.not_nil hk
    cases ha
  refine ⟨hinv.1, ?_, ?_, ?_, ?_, ?_⟩
  · intro p capacity h0
    obtain ⟨addr, hp, hb⟩ := remaining_eq_some.mp h0
    have hp' : mapGet cfg.Pools p = some (some addr) := hp
    refine ⟨(d.PoolAt addr).Bytes, remaining_eq_some.mpr ⟨addr, by rw [hinv.1]; exact hp', rfl⟩, ?_⟩
    have := hinv.2.2.2 p addr hp'
    rw [this]
    exact hb
  · intro c hpanic
    cases c with
    | create name sizeBytes opts =>
      rcases Create_panic d name sizeBytes opts hpanic with ⟨q, _, hq⟩ | hv | hl
      · exact hnil q hq
      · exact hinv.2.1 hv
      · exact hinv.2.2.1 hl
    | createClone name source snapshot opts =>
      rcases CreateClone_panic d name source snapshot opts hpanic with ⟨sv, _, hq⟩ | hl
      · exact hnil _ hq
      · exact hinv.2.2.1 hl
    | destroy name =>
      rcases Destroy_panic d name hpanic with hl | ⟨v, _, hq⟩
      · exact hinv.2.2.1 hl
      · exact hnil _ hq
  · intro name sizeBytes opts poolName addr hok hopt hpool
    obtain ⟨q, addr', _, _, hopt', hpool', _, hsize, _, _, _⟩ :=
      Create_eq_of_ok d name sizeBytes opts hok
    rw [hopt] at hopt'
    cases hopt'
    rw [hpool] at hpool'
    cases hpool'
    have hlt := Conserved_bytes_lt hrange hinv hpool
    exact ⟨hsize, subUint64_eq hsize (by omega)⟩
  · intro name source snapshot opts sourceVolume addr hok hsrc hpool
    obtain ⟨sv, addr', _, _, hsrc', _, hpool', hsize, _, _, _⟩ :=
      CreateClone_eq_of_ok d name source snapshot opts hok
    rw [hsrc] at hsrc'
    cases hsrc'
    rw [hpool] at hpool'
    cases hpool'
    have hlt := Conserved_bytes_lt hrange hinv hpool
    exact ⟨hsize, subUint64_eq hsize (by omega)⟩
  · intro name volume addr hv hp
    have hlt := Conserved_bytes_lt hrange hinv hp
    obtain ⟨volumes, hvols, hlive⟩ := ne_none_of_mapGet hv
    have hle := size_le_liveBytes volumes name volume hlive
    rw [hvols] at hlt
    have hb : (d.PoolAt addr).Bytes + volume.SizeBytes < uint64Size := by omega
    exact ⟨hb, addUint64_eq hb⟩

/-- The calls of the worked scenario: create, rejected create, clone, destroy. -/
theorem capacity_conservation_witness :
    OwnPools goldConfig ∧ PoolsInRange (NewFakeStorageDriver goldConfig goldPools) ∧
    ∃ bytes, remaining (run (NewFakeStorageDriver goldConfig goldPools)
        [.create "v1" 400 goldOpts, .create "v2" 700 goldOpts,
         .createClone "v1-clone" "v1" "snap1" ∅, .destroy "v1"]) "gold" = some bytes ∧
      bytes + liveBytes (run (NewFakeStorageDriver goldConfig goldPools)
        [.create "v1" 400 goldOpts, .create "v2" 700 goldOpts,
         .createClone "v1-clone" "v1" "snap1" ∅, .destroy "v1"]).Volumes "gold" = 1000 :=
  ⟨by decide, by decide,
   (capacity_conservation goldConfig goldPools (by decide) (by decide) _).2.1 "gold" 1000
     (by decide)⟩

/-! ## Create -/

/-- C2, as stated, fails: there are outcomes beside the four errors and success. With a
nil pointer under the key "gold" (what decoding `"gold": null` leaves), a `Create` that
passes the first three checks panics on reading the pool's bytes; and on a driver whose
maps were never made, a `Create` that passes all four checks panics on the write to the
volume table. -/
theorem Create_panics_on_nil :
    goldOpts.lookup FakePoolAttribute = some "gold" ∧
    mapGet nilPoolDriver.Config.Pools "gold" = some none ∧
    mapGet nilPoolDriver.Volumes "v1" = none ∧
    (Create nilPoolDriver "v1" 1 goldOpts).2 = .panicked ∧
    remaining unmadeDriver "gold" = some 1000 ∧
    mapGet unmadeDriver.Volumes "v1" = none ∧
    (Create unmadeDriver "v1" 1 goldOpts).2 = .panicked := by
  decide

/-- C2, amended. The outcome of `Create` is decided by four checks in a fixed order: no
"pool" key in the options gives "no pool specified" (whatever the name); else a pool name
missing from the registry gives "could not find pool"; else a live volume of that name
gives "already exists"; else, the key holding a pool, a size above the pool's remaining
bytes gives "too large"; else (a size equal to the remaining bytes included), the volume
table and the record of destroyed names having been made, the call succeeds. -/
theorem Create_check_order (d : FakeStorageDriver Offer) (name : String) (sizeBytes : Nat)
    (opts : GoMap String) :
    (opts.lookup FakePoolAttribute = none →
      (Create d name sizeBytes opts).2
        = .returned (some (.noPoolSpecified FakePoolAttribute))) ∧
    (∀ poolName, opts.lookup FakePoolAttribute = some poolName →
      mapGet d.Config.Pools poolName = none →
      (Create d name sizeBytes opts).2 = .returned (some (.couldNotFindPool none))) ∧
    (∀ poolName pool volume, opts.lookup FakePoolAttribute = some poolName →
      mapGet d.Config.Pools poolName = some pool →
      mapGet d.Volumes name = some volume →
      (Create d name sizeBytes opts).2 = .returned (some (.volumeAlreadyExists name))) ∧
    (∀ poolName addr, opts.lookup FakePoolAttribute = some poolName →
      mapGet d.Config.Pools poolName = some (some addr) →
      mapGet d.Volumes name = none → sizeBytes > (d.PoolAt addr).Bytes →
      (Create d name sizeBytes opts).2
        = .returned (some (.volumeTooLarge sizeBytes (d.PoolAt addr).Bytes poolName))) ∧
    (∀ poolName addr, opts.lookup FakePoolAttribute = some poolName →
      mapGet d.Config.Pools poolName = some (some addr) →
      mapGet d.Volumes name = none → sizeBytes ≤ (d.PoolAt addr).Bytes →
      d.Volumes ≠ none → d.DestroyedVolumes ≠ none →
      (Create d name sizeBytes opts).2 = .returned none) := by
  refine ⟨?_, ?_, ?_, ?_, ?_⟩
  · intro hopt
    rw [Create_no_pool_option d name sizeBytes opts hopt]
  · intro poolName hopt hpool
    rw [Create_pool_missing d name sizeBytes opts hopt hpool]
  · intro poolName pool volume hopt hpool hvol
    rw [Create_exists d name sizeBytes opts hopt hpool hvol]
  · intro poolName addr hopt hpool hvol hsize
    rw [Create_too_large d name sizeBytes opts hopt hpool hvol hsize]
  · intro poolName addr hopt hpool hvol hsize hvols hdes
    obtain ⟨volumes, hvols'⟩ := Option.ne_none_iff_exists'.mp hvols
    obtain ⟨destroyed, hdes'⟩ := Option.ne_none_iff_exists'.mp hdes
    rw [Create_ok d name sizeBytes opts hopt hpool hvol hsize hvols' hdes']

/-- A call without a pool option on the name of a live volume reports the missing pool. -/
theorem Create_check_order_witness :
    mapGet gold1.Volumes "v1" = some { Name := "v1", PoolName := "gold", SizeBytes := 400 } ∧
    (Create gold1 "v1" 400 ∅).2 = .returned (some (.noPoolSpecified FakePoolAttribute)) :=
  ⟨by decide, (Create_check_order gold1 "v1" 400 ∅).1 (by decide)⟩

/-- C3, as stated, fails. A successful `Create` writes the record of destroyed names: here
"v1" was recorded by `Destroy`; creating "v1" succeeds and the record is gone. And a pool
under another key changes too when that key holds the same pointer: on one pool of 1000
bytes under the keys "a" and "b", a `Create` of 400 bytes in "a" leaves 600 under "b". -/
theorem Create_touches_ledger :
    Recorded (Destroy gold0 "v1").1 "v1" ∧
    (Create (Destroy gold0 "v1").1 "v1" 400 goldOpts).2 = .returned none ∧
    (Create (Destroy gold0 "v1").1 "v1" 400 goldOpts).1.DestroyedVolumes
      ≠ (Destroy gold0 "v1").1.DestroyedVolumes ∧
    ¬ Recorded (Create (Destroy gold0 "v1").1 "v1" 400 goldOpts).1 "v1" ∧
    remaining sharedDriver "b" = some 1000 ∧
    (Create sharedDriver "v1" 400 aOpts).2 = .returned none ∧
    remaining (Create sharedDriver "v1" 400 aOpts).1 "b" = some 600 := by
  decide

/-- C3, amended. When `Create(name, sizeBytes, options)` succeeds with options naming pool
`poolName` (pool bytes being `uint64` values): the volume table maps `name` to the volume
(name, poolName, sizeBytes); the remaining bytes of the pool that the key `poolName` points
to are the previous value minus `sizeBytes`, its attributes kept; every other volume
entry, the registry itself and every other pool object are unchanged, so the remaining
bytes under every key that holds another pointer are unchanged; and
`DestroyedVolumes[name]` is set to `false`, the entries of the other names unchanged. -/
theorem Create_success_effect (d : FakeStorageDriver Offer) (name : String) (sizeBytes : Nat)
    (opts : GoMap String) (poolName : String) (hrange : PoolsInRange d)
    (hopt : opts.lookup FakePoolAttribute = some poolName)
    (hok : (Create d name sizeBytes opts).2 = .returned none) :
    mapGet (Create d name sizeBytes opts).1.Volumes name
      = some { Name := name, PoolName := poolName, SizeBytes := sizeBytes } ∧
    (∃ addr, mapGet d.Config.Pools poolName = some (some addr) ∧
      sizeBytes ≤ (d.PoolAt addr).Bytes ∧
      (Create d name sizeBytes opts).1.PoolAt addr
        = { d.PoolAt addr with Bytes := (d.PoolAt addr).Bytes - sizeBytes } ∧
      (∀ a, a ≠ addr → (Create d name sizeBytes opts).1.PoolAt a = d.PoolAt a) ∧
      (∀ q, mapGet d.Config.Pools q ≠ some (some addr) →
        remaining (Create d name sizeBytes opts).1 q = remaining d q)) ∧
    remaining (Create d name sizeBytes opts).1 poolName
      = (remaining d poolName).map (fun bytes => bytes - sizeBytes) ∧
    (Create d name sizeBytes opts).1.Config = d.Config ∧
    (∀ n, n ≠ name →
      mapGet (Create d name sizeBytes opts).1.Volumes n = mapGet d.Volumes n) ∧
    mapGet (Create d name sizeBytes opts).1.DestroyedVolumes name = some false ∧
    (∀ n, n ≠ name →
      mapGet (Create d name sizeBytes opts).1.DestroyedVolumes n
        = mapGet d.DestroyedVolumes n) := by
  obtain ⟨q, addr, volumes, destroyed, hopt', hpool, hvol, hsize, hvols, hdes, heq⟩ :=
    Create_eq_of_ok d name sizeBytes opts hok
  rw [hopt] at hopt'
  cases hopt'
  rw [heq]
  have hlt := bytes_lt_of_mapGet hrange hpool
  have hsub := subUint64_eq hsize hlt
  refine ⟨AList.lookup_insert _, ⟨addr, hpool, hsize, ?_, ?_, ?_⟩, ?_, rfl, ?_,
    AList.lookup_insert _, ?_⟩
  · simp only [setPoolBytes_self, hsub]
  · intro a ha
    exact setPoolBytes_other _ _ ha
  · intro q' hq'
    unfold remaining
    simp only []
    cases hq : mapGet d.Config.Pools q' with
    | none => rfl
    | some p =>
      cases p with
      | none => rfl
      | some a =>
        have hne : a ≠ addr := by
          intro ha
          subst ha
          exact hq' hq
        simp only [setPoolBytes_other _ _ hne]
  · unfold remaining
    simp only [hpool, setPoolBytes_self, hsub, Option.map_some']
  · intro n hn
    rw [hvols]
    exact lookup_insert_other _ _ hn
  · intro n hn
    rw [hdes]
    exact lookup_insert_other _ _ hn

/-- The first call of the worked scenario: 400 bytes of "gold". -/
theorem Create_success_effect_witness :
    PoolsInRange gold0 ∧
    mapGet (Create gold0 "v1" 400 goldOpts).1.Volumes "v1"
      = some { Name := "v1", PoolName := "gold", SizeBytes := 400 } ∧
    mapGet (Create gold0 "v1" 400 goldOpts).1.DestroyedVolumes "v1" = some false :=
  ⟨by decide,
   (Create_success_effect gold0 "v1" 400 goldOpts "gold" (by decide) (by decide) (by decide)).1,
   (Create_success_effect gold0 "v1" 400 goldOpts "gold" (by decide) (by decide)
     (by decide)).2.2.2.2.2.1⟩

/-! ## Failure atomicity -/

/-- C4. If `Create` or `CreateClone` returns an error, the driver (volume table, pool
registry with every pool's remaining bytes, record of destroyed names) is exactly what it
was before the call. -/
theorem creation_failure_atomic (d : FakeStorageDriver Offer) (name source snapshot : String)
    (sizeBytes : Nat) (opts : GoMap String) :
    (∀ e, (Create d name sizeBytes opts).2 = .returned (some e) →
      (Create d name sizeBytes opts).1 = d) ∧
    (∀ e, (CreateClone d name source snapshot opts).2 = .returned (some e) →
      (CreateClone d name source snapshot opts).1 = d) :=
  ⟨Create_eq_of_error d name sizeBytes opts, CreateClone_eq_of_error d name source snapshot opts⟩

/-- The rejected call of the worked scenario: 700 bytes asked of the 600 that remain. -/
theorem creation_failure_atomic_witness :
    (Create gold1 "v2" 700 goldOpts).2 = .returned (some (.volumeTooLarge 700 600 "gold")) ∧
    (Create gold1 "v2" 700 goldOpts).1 = gold1 :=
  ⟨by decide,
   (creation_failure_atomic gold1 "v2" "" "" 700 goldOpts).1 (.volumeTooLarge 700 600 "gold")
     (by decide)⟩

/-! ## The record of destroyed names -/

/-- What `Create` does to the record of destroyed names: nothing unless it succeeds, and
then it sets the entry of the new name to `false`. -/
theorem Create_ledger (d : FakeStorageDriver Offer) (name : String) (sizeBytes : Nat)
    (opts : GoMap String) :
    ((Create d name sizeBytes opts).2 ≠ .returned none ∧
      (Create d name sizeBytes opts).1.DestroyedVolumes = d.DestroyedVolumes) ∨
    (∃ destroyed, d.DestroyedVolumes = some destroyed ∧
      (Create d name sizeBytes opts).2 = .returned none ∧
      (Create d name sizeBytes opts).1.DestroyedVolumes
        = some (destroyed.insert name false)) := by
  rcases Create_cases d name sizeBytes opts with ⟨heq, hne⟩ |
    ⟨_, _, _, _, _, _, _, _, _, heq⟩ | ⟨_, _, _, destroyed, _, _, _, _, _, hdes, heq⟩
  · exact Or.inl ⟨hne, by rw [heq]⟩
  · exact Or.inl ⟨by rw [heq]; simp, by rw [heq]⟩
  · exact Or.inr ⟨destroyed, hdes, by rw [heq], by rw [heq]⟩

/-- What `CreateClone` does to the record of destroyed names: nothing unless it succeeds,
and then it sets the entry of the new name to `false`. -/
theorem CreateClone_ledger (d : FakeStorageDriver Offer) (name source snapshot : String)
    (opts : GoMap String) :
    ((CreateClone d name source snapshot opts).2 ≠ .returned none ∧
      (CreateClone d name source snapshot opts).1.DestroyedVolumes = d.DestroyedVolumes) ∨
    (∃ destroyed, d.DestroyedVolumes = some destroyed ∧
      (CreateClone d name source snapshot opts).2 = .returned none ∧
      (CreateClone d name source snapshot opts).1.DestroyedVolumes
        = some (destroyed.insert name false)) := by
  rcases CreateClone_cases d name source snapshot opts with ⟨heq, hne⟩ |
    ⟨_, _, _, _, _, _, _, _, _, heq⟩ | ⟨_, _, _, destroyed, _, _, _, _, _, hdes, heq⟩
  · exact Or.inl ⟨hne, by rw [heq]⟩
  · exact Or.inl ⟨by rw [heq]; simp, by rw [heq]⟩
  · exact Or.inr ⟨destroyed, hdes, by rw [heq], by rw [heq]⟩

theorem mapGet_insert_self {V : Type} (m : GoMap V) (k : String) (v : V) :
    mapGet (some (m.insert k v)) k = some v :=
  AList.lookup_insert _

theorem mapGet_insert_other {V : Type} (m : GoMap V) {k k' : String} (v : V) (h : k' ≠ k) :
    mapGet (some (m.insert k v)) k' = mapGet (some m) k' :=
  lookup_insert_other _ _ h

/-- C5, as stated, fails: a name recorded by `Destroy` does not stay recorded when a volume
of that name is created afterwards. Here "v2" is recorded, and both a clone named "v2" and
a new volume named "v2" succeed and leave "v2" not recorded. -/
theorem creation_resets_record :
    Recorded (Destroy gold1 "v2").1 "v2" ∧
    (CreateClone (Destroy gold1 "v2").1 "v2" "v1" "snap1" ∅).2 = .returned none ∧
    ¬ Recorded (CreateClone (Destroy gold1 "v2").1 "v2" "v1" "snap1" ∅).1 "v2" ∧
    (Create (Destroy gold1 "v2").1 "v2" 100 goldOpts).2 = .returned none ∧
    ¬ Recorded (Create (Destroy gold1 "v2").1 "v2" 100 goldOpts).1 "v2" := by
  decide

/-- C5, amended. A name `n` recorded as destroyed stays recorded after any later `Destroy`,
after any `Create` or `CreateClone` that does not succeed, and after any `Create` or
`CreateClone` of a volume with another name; a successful `Create` or `CreateClone` of a
volume named `n` sets the entry of `n` to `false`. Only `Destroy` records a name, and only
its own argument (it does so whenever the record has been made): `Create` and
`CreateClone` never make a name recorded. No call removes a key of the record. -/
theorem ledger_permanence (d : FakeStorageDriver Offer) (n : String) :
    (Recorded d n → ∀ name, Recorded (Destroy d name).1 n) ∧
    (Recorded d n → ∀ name sizeBytes opts,
      name ≠ n ∨ (Create d name sizeBytes opts).2 ≠ .returned none →
      Recorded (Create d name sizeBytes opts).1 n) ∧
    (Recorded d n → ∀ name source snapshot opts,
      name ≠ n ∨ (CreateClone d name source snapshot opts).2 ≠ .returned none →
      Recorded (CreateClone d name source snapshot opts).1 n) ∧
    (∀ sizeBytes opts, (Create d n sizeBytes opts).2 = .returned none →
      mapGet (Create d n sizeBytes opts).1.DestroyedVolumes n = some false) ∧
    (∀ source snapshot opts, (CreateClone d n source snapshot opts).2 = .returned none →
      mapGet (CreateClone d n source snapshot opts).1.DestroyedVolumes n = some false) ∧
    (∀ name sizeBytes opts, Recorded (Create d name sizeBytes opts).1 n → Recorded d n) ∧
    (∀ name source snapshot opts,
      Recorded (CreateClone d name source snapshot opts).1 n → Recorded d n) ∧
    (∀ name, Recorded (Destroy d name).1 n ↔
      (name = n ∧ d.DestroyedVolumes ≠ none) ∨ Recorded d n) ∧
    (∀ c : Call, (mapGet d.DestroyedVolumes n).isSome →
      (mapGet (step d c).DestroyedVolumes n).isSome) := by
  have hD : ∀ name, Recorded (Destroy d name).1 n ↔
      (name = n ∧ d.DestroyedVolumes ≠ none) ∨ Recorded d n := by
    intro name
    unfold Recorded
    rcases Destroy_ledger d name with ⟨hnil, heq⟩ | ⟨destroyed, hdes, heq⟩
    · rw [heq]
      simp [hnil, mapGet]
    · rw [heq, hdes]
      by_cases hn : n = name
      · subst hn
        simp [mapGet_insert_self]
      · rw [mapGet_insert_other _ _ hn]
        constructor
        · exact Or.inr
        · rintro (⟨h, _⟩ | h)
          · exact absurd h.symm hn
          · exact h
  -- the record after an insertion of `name`, seen at `n`
  have hkeep : ∀ (destroyed : GoMap Bool) (name : String) (b : Bool),
      (mapGet (some destroyed) n).isSome →
      (mapGet (some (destroyed.insert name b)) n).isSome := by
    intro destroyed name b h
    by_cases hn : n = name
    · subst hn
      simp [mapGet_insert_self]
    · rw [mapGet_insert_other _ _ hn]
      exact h
  refine ⟨?_, ?_, ?_, ?_, ?_, ?_, ?_, hD, ?_⟩
  · intro h name
    exact (hD name).mpr (Or.inr h)
  · intro h name sizeBytes opts hcase
    unfold Recorded at h ⊢
    rcases Create_ledger d name sizeBytes opts with ⟨_, heq⟩ | ⟨destroyed, hdes, hok, heq⟩
    · rw [heq]
      exact h
    · have hne : n ≠ name := by
        rcases hcase with hne | herr
        · exact Ne.symm hne
        · exact absurd hok herr
      rw [heq, mapGet_insert_other _ _ hne, ← hdes]
      exact h
  · intro h name source snapshot opts hcase
    unfold Recorded at h ⊢
    rcases CreateClone_ledger d name source snapshot opts with ⟨_, heq⟩ |
      ⟨destroyed, hdes, hok, heq⟩
    · rw [heq]
      exact h
    · have hne : n ≠ name := by
        rcases hcase with hne | herr
        · exact Ne.symm hne
        · exact absurd hok herr
      rw [heq, mapGet_insert_other _ _ hne, ← hdes]
      exact h
  · intro sizeBytes opts hok
    rcases Create_ledger d n sizeBytes opts with ⟨hne, _⟩ | ⟨destroyed, _, _, heq⟩
    · exact absurd hok hne
    · rw [heq]
      exact mapGet_insert_self _ _ _
  · intro source snapshot opts hok
    rcases CreateClone_ledger d n source snapshot opts with ⟨hne, _⟩ | ⟨destroyed, _, _, heq⟩
    · exact absurd hok hne
    · rw [heq]
      exact mapGet_insert_self _ _ _
  · intro name sizeBytes opts h
    unfold Recorded at h ⊢
    rcases Create_ledger d name sizeBytes opts with ⟨_, heq⟩ | ⟨destroyed, hdes, _, heq⟩
    · rw [heq] at h
      exact h
    · rw [heq] at h
      by_cases hn : n = name
      · subst hn
        rw [mapGet_insert_self] at h
        cases h
      · rw [mapGet_insert_other _ _ hn, ← hdes] at h
        exact h
  · intro name source snapshot opts h
    unfold Recorded at h ⊢
    rcases CreateClone_ledger d name source snapshot opts with ⟨_, heq⟩ |
      ⟨destroyed, hdes, _, heq⟩
    · rw [heq] at h
      exact h
    · rw [heq] at h
      by_cases hn : n = name
      · subst hn
        rw [mapGet_insert_self] at h
        cases h
      · rw [mapGet_insert_other _ _ hn, ← hdes] at h
        exact h
  · intro c h
    cases c with
    | create name sizeBytes opts =>
      simp only [step, call]
      rcases Create_ledger d name sizeBytes opts with ⟨_, heq⟩ | ⟨destroyed, hdes, _, heq⟩
      · rw [heq]
        exact h
      · rw [heq]
        rw [hdes] at h
        exact hkeep _ _ _ h
    | createClone name source snapshot opts =>
      simp only [step, call]
      rcases CreateClone_ledger d name source snapshot opts with ⟨_, heq⟩ |
        ⟨destroyed, hdes, _, heq⟩
      · rw [heq]
        exact h
      · rw [heq]
        rw [hdes] at h
        exact hkeep _ _ _ h
    | destroy name =>
      simp only [step, call]
      rcases Destroy_ledger d name with ⟨_, heq⟩ | ⟨destroyed, hdes, heq⟩
      · rw [heq]
        exact h
      · rw [heq]
        rw [hdes] at h
        exact hkeep _ _ _ h

/-- After `Destroy("v2")`, creating a volume under another name keeps "v2" recorded. -/
theorem ledger_permanence_witness :
    Recorded (Destroy gold1 "v2").1 "v2" ∧
    Recorded (Create (Destroy gold1 "v2").1 "v3" 100 goldOpts).1 "v2" :=
  ⟨by decide,
   (ledger_permanence (Destroy gold1 "v2").1 "v2").2.1 (by decide) "v3" 100 goldOpts
     (Or.inl (by decide))⟩

/-! ## Destroy -/

/-- C6, as stated, fails: on the zero-valued driver, whose record of destroyed names is
the nil map, `Destroy` of a name that is not live panics on its first statement and
records nothing. -/
theorem Destroy_panics_on_zero_driver :
    mapGet zeroDriver.Volumes "never-existed" = none ∧
    (Destroy zeroDriver "never-existed").2 = .panicked ∧
    ¬ Recorded (Destroy zeroDriver "never-existed").1 "never-existed" := by
  decide

/-- C6, amended. For every state whose record of destroyed names has been made (as the
constructor and a successful `Initialize` make it) and every name that is not a live
volume, `Destroy` returns no error, records the name as destroyed, and leaves the volume
table, the configuration and every pool (so every pool's remaining bytes) unchanged. -/
theorem Destroy_absent (d : FakeStorageDriver Offer) (name : String)
    (h : mapGet d.Volumes name = none) (hl : d.DestroyedVolumes ≠ none) :
    (Destroy d name).2 = .returned none ∧ Recorded (Destroy d name).1 name ∧
    (Destroy d name).1.Volumes = d.Volumes ∧ (Destroy d name).1.Config = d.Config ∧
    (Destroy d name).1.PoolAt = d.PoolAt := by
  obtain ⟨destroyed, hdes⟩ := Option.ne_none_iff_exists'.mp hl
  rw [Destroy_absent_eq d name hdes h]
  exact ⟨rfl, mapGet_insert_self _ _ _, rfl, rfl, rfl⟩

/-- The second scenario of the specification: a name that never existed. -/
theorem Destroy_absent_witness :
    mapGet gold0.Volumes "never-existed" = none ∧ gold0.DestroyedVolumes ≠ none ∧
    (Destroy gold0 "never-existed").2 = .returned none ∧
    Recorded (Destroy gold0 "never-existed").1 "never-existed" :=
  ⟨by decide, by decide, (Destroy_absent gold0 "never-existed" (by decide) (by decide)).1,
    (Destroy_absent gold0 "never-existed" (by decide) (by decide)).2.1⟩

/-- C7, as stated, fails. The bytes given back are added in `uint64`: with the pool at the
largest `uint64` value and a live volume of one byte, `Destroy` leaves the pool at 0, not
at one byte more. The bytes are added through the pointer: with one pool under the keys
"a" and "b", destroying a volume of "a" changes the remaining bytes under "b" from 600 to
1000. And with a nil pointer under the key of a live volume, `Destroy` panics. -/
theorem Destroy_wraps_pool_bytes :
    mapGet fullDriver.Volumes "v1" = some { Name := "v1", PoolName := "gold", SizeBytes := 1 } ∧
    remaining fullDriver "gold" = some 18446744073709551615 ∧
    PoolsInRange fullDriver ∧
    (Destroy fullDriver "v1").2 = .returned none ∧
    remaining (Destroy fullDriver "v1").1 "gold" = some 0 ∧
    remaining (Create sharedDriver "v1" 400 aOpts).1 "b" = some 600 ∧
    (Destroy (Create sharedDriver "v1" 400 aOpts).1 "v1").2 = .returned none ∧
    remaining (Destroy (Create sharedDriver "v1" 400 aOpts).1 "v1").1 "b" = some 1000 ∧
    mapGet nilPoolLive.Volumes "v1"
      = some { Name := "v1", PoolName := "gold", SizeBytes := 400 } ∧
    mapGet nilPoolLive.Config.Pools "gold" = some none ∧
    (Destroy nilPoolLive "v1").2 = .panicked := by
  decide

/-- C7, amended. When `name` is a live volume whose pool name is a key of the registry
that holds a pool, and the record of destroyed names has been made, `Destroy` returns no
error, removes `name` from the volume table, sets the remaining bytes of that pool to the
previous value plus the volume's size modulo `2 ^ 64` (so exactly to that sum whenever the
sum is a `uint64` value), and leaves every other volume, the registry itself and every
other pool object unchanged, so the remaining bytes under every key that holds another
pointer are unchanged. -/
theorem Destroy_live_effect (d : FakeStorageDriver Offer) (name : String) (volume : FakeVolume)
    (addr : Nat) (hv : mapGet d.Volumes name = some volume)
    (hp : mapGet d.Config.Pools volume.PoolName = some (some addr))
    (hl : d.DestroyedVolumes ≠ none) :
    (Destroy d name).2 = .returned none ∧
    mapGet (Destroy d name).1.Volumes name = none ∧
    (Destroy d name).1.PoolAt addr
      = { d.PoolAt addr with Bytes := ((d.PoolAt addr).Bytes + volume.SizeBytes) % 2 ^ 64 } ∧
    ((d.PoolAt addr).Bytes + volume.SizeBytes < 2 ^ 64 →
      (Destroy d name).1.PoolAt addr
        = { d.PoolAt addr with Bytes := (d.PoolAt addr).Bytes + volume.SizeBytes }) ∧
    (∀ n, n ≠ name → mapGet (Destroy d name).1.Volumes n = mapGet d.Volumes n) ∧
    (Destroy d name).1.Config = d.Config ∧
    (∀ a, a ≠ addr → (Destroy d name).1.PoolAt a = d.PoolAt a) ∧
    (∀ q, mapGet d.Config.Pools q ≠ some (some addr) →
      remaining (Destroy d name).1 q = remaining d q) := by
  obtain ⟨destroyed, hdes⟩ := Option.ne_none_iff_exists'.mp hl
  obtain ⟨volumes, hvols, _⟩ := ne_none_of_mapGet hv
  rw [Destroy_live_eq d name hdes hv hp hvols]
  have hself : setPoolBytes d.PoolAt addr (addUint64 (d.PoolAt addr).Bytes volume.SizeBytes) addr
      = { d.PoolAt addr with Bytes := ((d.PoolAt addr).Bytes + volume.SizeBytes) % 2 ^ 64 } := by
    rw [setPoolBytes_self]
    rfl
  refine ⟨rfl, AList.lookup_erase _ _, hself, ?_, ?_, rfl, ?_, ?_⟩
  · intro hlt
    simp only []
    rw [hself, Nat.mod_eq_of_lt hlt]
  · intro n hn
    rw [hvols]
    exact lookup_erase_other _ hn
  · intro a ha
    exact setPoolBytes_other _ _ ha
  · intro q hq
    unfold remaining
    simp only []
    cases hq' : mapGet d.Config.Pools q with
    | none => rfl
    | some p =>
      cases p with
      | none => rfl
      | some a =>
        have hne : a ≠ addr := by
          intro ha
          subst ha
          exact hq hq'
        simp only [setPoolBytes_other _ _ hne]

/-- The last call of the worked scenario's state `gold1`: destroying "v1" gives its 400
bytes back to "gold". -/
theorem Destroy_live_effect_witness :
    mapGet gold1.Volumes "v1" = some { Name := "v1", PoolName := "gold", SizeBytes := 400 } ∧
    mapGet gold1.Config.Pools "gold" = some (some 0) ∧ gold1.DestroyedVolumes ≠ none ∧
    (Destroy gold1 "v1").1.PoolAt 0
      = { gold1.PoolAt 0 with Bytes := (gold1.PoolAt 0).Bytes + 400 } :=
  ⟨by decide, by decide, by decide,
   (Destroy_live_effect gold1 "v1" { Name := "v1", PoolName := "gold", SizeBytes := 400 } 0
     (by decide) (by decide) (by decide)).2.2.2.1 (by decide)⟩

/-- C10. When `name` is a live volume whose recorded pool is absent from the registry (the
record of destroyed names having been made, as it is whenever the volume table is),
`Destroy` fails with "could not find pool" naming that pool, leaves the volume table, the
configuration and every pool (so every pool's remaining bytes) unchanged, and still
records `name` as destroyed. -/
theorem Destroy_orphan (d : FakeStorageDriver Offer) (name : String) (volume : FakeVolume)
    (hv : mapGet d.Volumes name = some volume)
    (hp : mapGet d.Config.Pools volume.PoolName = none)
    (hl : d.DestroyedVolumes ≠ none) :
    (Destroy d name).2 = .returned (some (.couldNotFindPool (some volume.PoolName))) ∧
    (Destroy d name).1.Volumes = d.Volumes ∧ (Destroy d name).1.Config = d.Config ∧
    (Destroy d name).1.PoolAt = d.PoolAt ∧
    Recorded (Destroy d name).1 name := by
  obtain ⟨destroyed, hdes⟩ := Option.ne_none_iff_exists'.mp hl
  rw [Destroy_orphan_eq d name hdes hv hp]
  exact ⟨rfl, rfl, rfl, rfl, mapGet_insert_self _ _ _⟩

/-- The volume "v1" of `orphanDriver` names the pool "ghost", which does not exist. -/
theorem Destroy_orphan_witness :
    mapGet orphanDriver.Volumes "v1"
      = some { Name := "v1", PoolName := "ghost", SizeBytes := 10 } ∧
    mapGet orphanDriver.Config.Pools "ghost" = none ∧
    orphanDriver.DestroyedVolumes ≠ none ∧
    (Destroy orphanDriver "v1").2 = .returned (some (.couldNotFindPool (some "ghost"))) ∧
    (Destroy orphanDriver "v1").1.Volumes = orphanDriver.Volumes :=
  ⟨by decide, by decide, by decide,
   (Destroy_orphan orphanDriver "v1" { Name := "v1", PoolName := "ghost", SizeBytes := 10 }
     (by decide) (by decide) (by decide)).1,
   (Destroy_orphan orphanDriver "v1" { Name := "v1", PoolName := "ghost", SizeBytes := 10 }
     (by decide) (by decide) (by decide)).2.1⟩

/-! ## CreateClone -/

/-- C8. Clone fidelity: when `CreateClone(name, source, snapshot, options)` succeeds (pool
bytes being `uint64` values), the new volume has the pool name and the size the source
volume had at the call, that pool's remaining bytes drop by exactly that size (the
registry itself is unchanged), and the call with any other snapshot label and any other
options map gives the same state and the same outcome. -/
theorem CreateClone_fidelity (d : FakeStorageDriver Offer) (name source snapshot : String)
    (opts : GoMap String) (hrange : PoolsInRange d)
    (hok : (CreateClone d name source snapshot opts).2 = .returned none) :
    ∃ sourceVolume addr, mapGet d.Volumes source = some sourceVolume ∧
      mapGet d.Config.Pools sourceVolume.PoolName = some (some addr) ∧
      mapGet (CreateClone d name source snapshot opts).1.Volumes name
        = some { Name := name, PoolName := sourceVolume.PoolName,
                 SizeBytes := sourceVolume.SizeBytes } ∧
      sourceVolume.SizeBytes ≤ (d.PoolAt addr).Bytes ∧
      (CreateClone d name source snapshot opts).1.Config = d.Config ∧
      (CreateClone d name source snapshot opts).1.PoolAt addr
        = { d.PoolAt addr with Bytes := (d.PoolAt addr).Bytes - sourceVolume.SizeBytes } ∧
      remaining (CreateClone d name source snapshot opts).1 sourceVolume.PoolName
        = some ((d.PoolAt addr).Bytes - sourceVolume.SizeBytes) ∧
      remaining d sourceVolume.PoolName = some (d.PoolAt addr).Bytes ∧
      ∀ snapshot' opts', CreateClone d name source snapshot' opts'
        = CreateClone d name source snapshot opts := by
  obtain ⟨sv, addr, volumes, destroyed, hsrc, _, hpool, hsize, _, _, heq⟩ :=
    CreateClone_eq_of_ok d name source snapshot opts hok
  have hlt := bytes_lt_of_mapGet hrange hpool
  have hsub := subUint64_eq hsize hlt
  refine ⟨sv, addr, hsrc, hpool, ?_, hsize, ?_, ?_, ?_, ?_, fun _ _ => rfl⟩
  · rw [heq]
    exact mapGet_insert_self _ _ _
  · rw [heq]
  · rw [heq]
    simp only [setPoolBytes_self, hsub]
  · rw [heq]
    unfold remaining
    simp only [hpool, setPoolBytes_self, hsub]
  · unfold remaining
    simp only [hpool]

/-- The clone of the worked scenario: "v1-clone" of "v1", with 600 bytes remaining. -/
theorem CreateClone_fidelity_witness :
    PoolsInRange gold1 ∧
    (CreateClone gold1 "v1-clone" "v1" "snap1" ∅).2 = .returned none ∧
    ∃ sourceVolume addr, mapGet gold1.Volumes "v1" = some sourceVolume ∧
      mapGet gold1.Config.Pools sourceVolume.PoolName = some (some addr) ∧
      mapGet (CreateClone gold1 "v1-clone" "v1" "snap1" ∅).1.Volumes "v1-clone"
        = some { Name := "v1-clone", PoolName := sourceVolume.PoolName,
                 SizeBytes := sourceVolume.SizeBytes } ∧
      sourceVolume.SizeBytes ≤ (gold1.PoolAt addr).Bytes ∧
      (CreateClone gold1 "v1-clone" "v1" "snap1" ∅).1.Config = gold1.Config ∧
      (CreateClone gold1 "v1-clone" "v1" "snap1" ∅).1.PoolAt addr
        = { gold1.PoolAt addr with
            Bytes := (gold1.PoolAt addr).Bytes - sourceVolume.SizeBytes } ∧
      remaining (CreateClone gold1 "v1-clone" "v1" "snap1" ∅).1 sourceVolume.PoolName
        = some ((gold1.PoolAt addr).Bytes - sourceVolume.SizeBytes) ∧
      remaining gold1 sourceVolume.PoolName = some (gold1.PoolAt addr).Bytes ∧
      ∀ snapshot' opts', CreateClone gold1 "v1-clone" "v1" snapshot' opts'
        = CreateClone gold1 "v1-clone" "v1" "snap1" ∅ :=
  ⟨by decide, by decide,
   CreateClone_fidelity gold1 "v1-clone" "v1" "snap1" ∅ (by decide) (by decide)⟩

/-- C9, as stated, fails: between the "already exists" check and the capacity check,
`CreateClone` looks the source's pool up and fails when it is missing. Here the source
"v1" is live, the name "c" is free and no pool's remaining bytes are exceeded, yet the call
neither succeeds nor reports insufficient capacity. And when the key is there but holds a
nil pointer, the call panics on reading the pool's bytes. -/
theorem CreateClone_pool_check :
    mapGet orphanDriver.Volumes "v1"
      = some { Name := "v1", PoolName := "ghost", SizeBytes := 10 } ∧
    mapGet orphanDriver.Volumes "c" = none ∧
    mapGet orphanDriver.Config.Pools "ghost" = none ∧
    (CreateClone orphanDriver "c" "v1" "snap1" ∅).2 ≠ .returned none ∧
    (CreateClone orphanDriver "c" "v1" "snap1" ∅).2
      = .returned (some (.couldNotFindPool none)) ∧
    mapGet nilPoolLive.Volumes "v1"
      = some { Name := "v1", PoolName := "gold", SizeBytes := 400 } ∧
    mapGet nilPoolLive.Volumes "c" = none ∧
    mapGet nilPoolLive.Config.Pools "gold" = some none ∧
    (CreateClone nilPoolLive "c" "v1" "snap1" ∅).2 = .panicked := by
  decide

/-- C9, amended. The outcome of `CreateClone` is decided by four checks in a fixed order:
a source that is not a live volume gives "source not found" (whatever the name); else a
live volume of the clone's name (the source itself included) gives "already exists"; else
a source whose pool name is missing from the registry gives "could not find pool"; else,
the key holding a pool, a source size above the current remaining bytes of that pool gives
"too large"; else, the record of destroyed names having been made, the call succeeds. -/
theorem CreateClone_check_order (d : FakeStorageDriver Offer) (name source snapshot : String)
    (opts : GoMap String) :
    (mapGet d.Volumes source = none →
      (CreateClone d name source snapshot opts).2
        = .returned (some (.sourceVolumeNotFound name))) ∧
    (∀ sourceVolume volume, mapGet d.Volumes source = some sourceVolume →
      mapGet d.Volumes name = some volume →
      (CreateClone d name source snapshot opts).2
        = .returned (some (.volumeAlreadyExists name))) ∧
    (∀ sourceVolume, mapGet d.Volumes source = some sourceVolume →
      (CreateClone d source source snapshot opts).2
        = .returned (some (.volumeAlreadyExists source))) ∧
    (∀ sourceVolume, mapGet d.Volumes source = some sourceVolume →
      mapGet d.Volumes name = none →
      mapGet d.Config.Pools sourceVolume.PoolName = none →
      (CreateClone d name source snapshot opts).2
        = .returned (some (.couldNotFindPool none))) ∧
    (∀ sourceVolume addr, mapGet d.Volumes source = some sourceVolume →
      mapGet d.Volumes name = none →
      mapGet d.Config.Pools sourceVolume.PoolName = some (some addr) →
      sourceVolume.SizeBytes > (d.PoolAt addr).Bytes →
      (CreateClone d name source snapshot opts).2
        = .returned (some (.cloneTooLarge sourceVolume.SizeBytes (d.PoolAt addr).Bytes
            sourceVolume.PoolName))) ∧
    (∀ sourceVolume addr, mapGet d.Volumes source = some sourceVolume →
      mapGet d.Volumes name = none →
      mapGet d.Config.Pools sourceVolume.PoolName = some (some addr) →
      sourceVolume.SizeBytes ≤ (d.PoolAt addr).Bytes →
      d.DestroyedVolumes ≠ none →
      (CreateClone d name source snapshot opts).2 = .returned none) := by
  refine ⟨?_, ?_, ?_, ?_, ?_, ?_⟩
  · intro hsrc
    rw [CreateClone_source_missing d name source snapshot opts hsrc]
  · intro sourceVolume volume hsrc hvol
    rw [CreateClone_exists d name source snapshot opts hsrc hvol]
  · intro sourceVolume hsrc
    rw [CreateClone_exists d source source snapshot opts hsrc hsrc]
  · intro sourceVolume hsrc hvol hpool
    rw [CreateClone_pool_missing d name source snapshot opts hsrc hvol hpool]
  · intro sourceVolume addr hsrc hvol hpool hsize
    rw [CreateClone_too_large d name source snapshot opts hsrc hvol hpool hsize]
  · intro sourceVolume addr hsrc hvol hpool hsize hdes
    obtain ⟨volumes, hvols, _⟩ := ne_none_of_mapGet hsrc
    obtain ⟨destroyed, hdes'⟩ := Option.ne_none_iff_exists'.mp hdes
    rw [CreateClone_ok d name source snapshot opts hsrc hvol hpool hsize hvols hdes']

/-- With 200 bytes remaining, a second clone of the 400-byte volume "v1" is too large: the
source's own allocation gives it no free capacity. -/
theorem CreateClone_check_order_witness :
    mapGet (CreateClone gold1 "v1-clone" "v1" "snap1" ∅).1.Volumes "v1"
      = some { Name := "v1", PoolName := "gold", SizeBytes := 400 } ∧
    (CreateClone (CreateClone gold1 "v1-clone" "v1" "snap1" ∅).1 "v1-clone2" "v1" "snap2" ∅).2
      = .returned (some (.cloneTooLarge 400 200 "gold")) :=
  ⟨by decide,
   (CreateClone_check_order (CreateClone gold1 "v1-clone" "v1" "snap1" ∅).1 "v1-clone2" "v1"
     "snap2" ∅).2.2.2.2.1 { Name := "v1", PoolName := "gold", SizeBytes := 400 } 0
     (by decide) (by decide) (by decide) (by decide)⟩

/-! ## Destroying twice -/

/-- C11, as stated, fails: the record of destroyed names is a map keyed by name, so the
second `Destroy` of a name overwrites the entry of the first. After two calls on
"never-existed" the record has one entry, as after one call. And on the zero-valued
driver, whose record is the nil map, the first `Destroy` already panics. -/
theorem Destroy_twice_one_entry :
    mapGet gold0.Volumes "never-existed" = none ∧
    (mapEntries gold0.DestroyedVolumes).length = 0 ∧
    (mapEntries (Destroy gold0 "never-existed").1.DestroyedVolumes).length = 1 ∧
    (mapEntries
      (Destroy (Destroy gold0 "never-existed").1 "never-existed").1.DestroyedVolumes).length
      = 1 ∧
    mapGet zeroDriver.Volumes "never-existed" = none ∧
    (Destroy zeroDriver "never-existed").2 = .panicked := by
  decide

/-- C11, amended. For every state whose record of destroyed names has been made and every
name that is not a live volume, calling `Destroy` twice in a row returns no error both
times; the first call sets the entry of the name in the record to `true`, and the second
call leaves the whole driver, the record included, exactly as the first call left it (the
record holds one entry for the name). -/
theorem Destroy_twice (d : FakeStorageDriver Offer) (name : String)
    (h : mapGet d.Volumes name = none) (hl : d.DestroyedVolumes ≠ none) :
    (Destroy d name).2 = .returned none ∧
    (Destroy (Destroy d name).1 name).2 = .returned none ∧
    Recorded (Destroy d name).1 name ∧
    (Destroy (Destroy d name).1 name).1 = (Destroy d name).1 ∧
    ((mapKeys (Destroy (Destroy d name).1 name).1.DestroyedVolumes).count name = 1) := by
  obtain ⟨destroyed, hdes⟩ := Option.ne_none_iff_exists'.mp hl
  have h1 := Destroy_absent_eq d name hdes h
  have h2 : mapGet (Destroy d name).1.Volumes name = none := by rw [h1]; exact h
  have hdes2 : (Destroy d name).1.DestroyedVolumes = some (destroyed.insert name true) := by
    rw [h1]
  have h3 := Destroy_absent_eq (Destroy d name).1 name hdes2 h2
  have hsame : (Destroy (Destroy d name).1 name).1 = (Destroy d name).1 := by
    rw [h3, h1]
    simp [AList.insert_insert]
  refine ⟨by rw [h1], by rw [h3], ?_, hsame, ?_⟩
  · rw [h1]
    exact mapGet_insert_self _ _ _
  · rw [hsame, h1]
    simp only [mapKeys]
    apply List.count_eq_one_of_mem (AList.keys_nodup _)
    rw [← AList.mem_keys]
    exact (AList.mem_insert _).mpr (Or.inl rfl)

/-- The second scenario of the specification, with the call made twice. -/
theorem Destroy_twice_witness :
    mapGet gold0.Volumes "never-existed" = none ∧ gold0.DestroyedVolumes ≠ none ∧
    (Destroy gold0 "never-existed").2 = .returned none ∧
    (Destroy (Destroy gold0 "never-existed").1 "never-existed").2 = .returned none ∧
    (Destroy (Destroy gold0 "never-existed").1 "never-existed").1
      = (Destroy gold0 "never-existed").1 :=
  ⟨by decide, by decide, (Destroy_twice gold0 "never-existed" (by decide) (by decide)).1,
    (Destroy_twice gold0 "never-existed" (by decide) (by decide)).2.1,
    (Destroy_twice gold0 "never-existed" (by decide) (by decide)).2.2.2.1⟩

/-! ## List -/

theorem foldl_append_singleton (l init : List String) :
    l.foldl (fun vols vol => vols ++ [vol]) init = init ++ l := by
  induction l generalizing init with
  | nil => simp
  | cons x xs ih => simp [ih]

theorem mapKeys_nodup {V : Type} (m : Option (GoMap V)) : (mapKeys m).Nodup := by
  cases m with
  | none => exact List.nodup_nil
  | some entries => exact AList.keys_nodup _

theorem mem_mapKeys {V : Type} (m : Option (GoMap V)) (n : String) :
    n ∈ mapKeys m ↔ (mapGet m n).isSome := by
  cases m with
  | none => simp [mapKeys, mapGet]
  | some entries =>
    simp only [mapKeys, mapGet]
    rw [← AList.mem_keys, AList.lookup_isSome]

/-- C12. In every state `List` returns no error and a sequence that is a permutation of
the live volume names: it has no duplicates, a name occurs in it exactly when it is a key
of the volume table (and then exactly once), and the driver is returned unchanged. -/
theorem List_permutation (d : FakeStorageDriver Offer) :
    d.List.2.2 = none ∧ d.List.2.1.Nodup ∧
    (∀ n, n ∈ d.List.2.1 ↔ (mapGet d.Volumes n).isSome) ∧
    (∀ n, (mapGet d.Volumes n).isSome → d.List.2.1.count n = 1) ∧
    (∀ n, mapGet d.Volumes n = none → d.List.2.1.count n = 0) ∧
    d.List.2.1.Perm (mapKeys d.Volumes) ∧
    d.List.1 = d := by
  have hkeys : d.List.2.1 = mapKeys d.Volumes := by
    simp [FakeStorageDriver.List, foldl_append_singleton]
  rw [hkeys]
  refine ⟨rfl, mapKeys_nodup _, mem_mapKeys _, ?_, ?_, List.Perm.refl _, rfl⟩
  · intro n hn
    exact List.count_eq_one_of_mem (mapKeys_nodup _) ((mem_mapKeys _ n).mpr hn)
  · intro n hn
    apply List.count_eq_zero_of_not_mem
    rw [mem_mapKeys, hn]
    simp

/-! ## The worked scenario -/

/-- C13. The worked scenario of the specification: with one pool "gold" of 1000 bytes and
no volumes, `Create("v1", 400, {pool: gold})` succeeds and leaves 600; `Create("v2", 700,
{pool: gold})` fails for capacity and leaves 600; `CreateClone("v1-clone", "v1", "snap1",
{})` succeeds and leaves 200; `Destroy("v1")` succeeds and leaves 600; `List` then returns
exactly "v1-clone". -/
theorem worked_scenario :
    mapEntries gold0.Volumes = [] ∧ remaining gold0 "gold" = some 1000 ∧
    (Create gold0 "v1" 400 goldOpts).2 = .returned none ∧ remaining gold1 "gold" = some 600 ∧
    (Create gold1 "v2" 700 goldOpts).2 = .returned (some (.volumeTooLarge 700 600 "gold")) ∧
    remaining gold2 "gold" = some 600 ∧
    (CreateClone gold2 "v1-clone" "v1" "snap1" ∅).2 = .returned none ∧
    remaining gold3 "gold" = some 200 ∧
    (Destroy gold3 "v1").2 = .returned none ∧ remaining gold4 "gold" = some 600 ∧
    gold4.List.2 = (["v1-clone"], none) := by
  decide

/-! ## The error of a missing clone source -/

/-- C14 fails on the code: when the source is not a live volume, the error of `CreateClone`
carries the name of the clone. Cloning the missing "missing" into "c" reports "c". -/
theorem CreateClone_reports_clone_name :
    mapGet gold0.Volumes "missing" = none ∧
    (CreateClone gold0 "c" "missing" "snap1" ∅).2
      = .returned (some (.sourceVolumeNotFound "c")) ∧
    (CreateClone gold0 "c" "missing" "snap1" ∅).2
      ≠ .returned (some (.sourceVolumeNotFound "missing")) := by
  decide

/-! ## Unsupported operations -/

/-- C15. `Attach`, `Detach` and `SnapshotList` fail on every call, in every state and for
every argument, each with its own fixed message that names the operation ("attaching",
"detaching", "SnapshotList"), and they return the driver unchanged; `SnapshotList` returns
no snapshots. -/
theorem unsupported_operations {Snapshot : Type} (d : FakeStorageDriver Offer)
    (name mountpoint : String) (opts : GoMap String) :
    (Attach d name mountpoint opts).2
      = some (.errorsNew "Fake driver does not support attaching.") ∧
    (Attach d name mountpoint opts).1 = d ∧
    (Detach d name mountpoint).2 = some (.errorsNew "Fake driver does not support detaching.") ∧
    (Detach d name mountpoint).1 = d ∧
    (SnapshotList d name : _ × List Snapshot × _).2.2
      = some (.errorsNew "Fake driver does not support SnapshotList") ∧
    (SnapshotList d name : _ × List Snapshot × _).2.1 = [] ∧
    (SnapshotList d name : _ × List Snapshot × _).1 = d ∧
    "attach".toList <:+: "Fake driver does not support attaching.".toList ∧
    "detach".toList <:+: "Fake driver does not support detaching.".toList ∧
    "SnapshotList".toList <:+: "Fake driver does not support SnapshotList".toList :=
  ⟨rfl, rfl, rfl, rfl, rfl, rfl, rfl, by decide, by decide, by decide⟩

/-! ## Initialize -/

/-- When decoding succeeds and leaves the embedded common configuration present,
`Initialize` returns no error, makes a new empty volume table and a new empty record of
destroyed names, and sets the serial numbers to the single entry
`InstanceName ++ "_SN"`. -/
theorem Initialize_eq_of_common
    (jsonUnmarshal : String → FakeStorageDriverConfig → (Nat → FakeStoragePool Offer) →
      FakeStorageDriverConfig × (Nat → FakeStoragePool Offer) × Option String)
    (d : FakeStorageDriver Offer) (context configJSON : String)
    (commonConfig : Option CommonStorageDriverConfig) (config : FakeStorageDriverConfig)
    (poolAt : Nat → FakeStoragePool Offer) (common : CommonStorageDriverConfig)
    (hdec : jsonUnmarshal configJSON d.Config d.PoolAt = (config, poolAt, none))
    (hcommon : config.Common = some common) :
    (Initialize jsonUnmarshal d context configJSON commonConfig).2 = .returned none ∧
    (Initialize jsonUnmarshal d context configJSON commonConfig).1.Volumes = some ∅ ∧
    (Initialize jsonUnmarshal d context configJSON commonConfig).1.DestroyedVolumes = some ∅ ∧
    (Initialize jsonUnmarshal d context configJSON commonConfig).1.Config.Common
      = some { common with SerialNumbers := [config.InstanceName ++ "_SN"] } := by
  simp [Initialize, hdec, hcommon]

/-- When decoding succeeds and leaves the embedded common configuration nil, `Initialize`
panics on the assignment of the serial numbers. -/
theorem Initialize_eq_of_nil_common
    (jsonUnmarshal : String → FakeStorageDriverConfig → (Nat → FakeStoragePool Offer) →
      FakeStorageDriverConfig × (Nat → FakeStoragePool Offer) × Option String)
    (d : FakeStorageDriver Offer) (context configJSON : String)
    (commonConfig : Option CommonStorageDriverConfig) (config : FakeStorageDriverConfig)
    (poolAt : Nat → FakeStoragePool Offer)
    (hdec : jsonUnmarshal configJSON d.Config d.PoolAt = (config, poolAt, none))
    (hcommon : config.Common = none) :
    (Initialize jsonUnmarshal d context configJSON commonConfig).2 = .panicked := by
  simp [Initialize, hdec, hcommon]

/-- C16 fails on the code: on the zero-valued driver, the input that sets only the instance
name decodes without error and leaves the embedded common configuration nil; `Initialize`
then panics instead of returning success. -/
theorem Initialize_panics_without_common :
    zeroDriver.Config.Common = none ∧
    (jsonUnmarshalSample instanceOnlyJSON zeroDriver.Config zeroDriver.PoolAt).2.2 = none ∧
    (jsonUnmarshalSample instanceOnlyJSON zeroDriver.Config zeroDriver.PoolAt).1.InstanceName
      = "fake1" ∧
    (jsonUnmarshalSample instanceOnlyJSON zeroDriver.Config zeroDriver.PoolAt).1.Common
      = none ∧
    (Initialize jsonUnmarshalSample zeroDriver "" instanceOnlyJSON none).2 = .panicked ∧
    (Initialize jsonUnmarshalSample zeroDriver "" instanceOnlyJSON none).2 ≠ .returned none := by
  decide

/-- C17, as stated, fails: `Initialize` decodes into the configuration it holds and does not
restore it. On the input with a mistyped instance name the decoder has already set the
protocol when it reports the error, and the driver keeps "block" where it had "file". -/
theorem Initialize_keeps_partial_config :
    gold1.Config.Protocol = "file" ∧
    (Initialize jsonUnmarshalSample gold1 "" typeMismatchJSON none).2
      = .returned (some (.unableToInitialize typeMismatchError)) ∧
    (Initialize jsonUnmarshalSample gold1 "" typeMismatchJSON none).1.Config.Protocol
      = "block" := by
  decide

/-- C17, amended. When decoding the configuration input fails, `Initialize` returns an
error carrying the decoder's error and leaves the volume table and the record of destroyed
names exactly as before the call; the configuration and the pools are what the decoder,
which writes in place, left of them, so the whole driver is as before when the decoder
wrote nothing. Decoding a pool fails, leaving the pool's size as it was, whenever its
bytes are malformed or its attribute map cannot be decoded. -/
theorem Initialize_decode_failure
    (jsonUnmarshal : String → FakeStorageDriverConfig → (Nat → FakeStoragePool Offer) →
      FakeStorageDriverConfig × (Nat → FakeStoragePool Offer) × Option String)
    (d : FakeStorageDriver Offer) (context configJSON : String)
    (commonConfig : Option CommonStorageDriverConfig) (config : FakeStorageDriverConfig)
    (poolAt : Nat → FakeStoragePool Offer) (err : String)
    (hdec : jsonUnmarshal configJSON d.Config d.PoolAt = (config, poolAt, some err)) :
    (Initialize jsonUnmarshal d context configJSON commonConfig).2
      = .returned (some (.unableToInitialize err)) ∧
    (Initialize jsonUnmarshal d context configJSON commonConfig).1.Volumes = d.Volumes ∧
    (Initialize jsonUnmarshal d context configJSON commonConfig).1.DestroyedVolumes
      = d.DestroyedVolumes ∧
    (Initialize jsonUnmarshal d context configJSON commonConfig).1.Config = config ∧
    (Initialize jsonUnmarshal d context configJSON commonConfig).1.PoolAt = poolAt ∧
    (config = d.Config → poolAt = d.PoolAt →
      (Initialize jsonUnmarshal d context configJSON commonConfig).1 = d) ∧
    (∀ (decodeTmp : String → Except String (String × Nat))
        (UnmarshalOfferMap : String → GoMap Offer × Option String)
        (p : FakeStoragePool Offer) (data : String),
      (∀ e, decodeTmp data = .error e →
        FakeStoragePool.UnmarshalJSON decodeTmp UnmarshalOfferMap p data = (p, some e)) ∧
      (∀ attrs bytes offers e, decodeTmp data = .ok (attrs, bytes) →
        UnmarshalOfferMap attrs = (offers, some e) →
        (FakeStoragePool.UnmarshalJSON decodeTmp UnmarshalOfferMap p data).2 = some e ∧
        (FakeStoragePool.UnmarshalJSON decodeTmp UnmarshalOfferMap p data).1.Bytes
          = p.Bytes)) := by
  refine ⟨?_, ?_, ?_, ?_, ?_, ?_, ?_⟩
  · simp [Initialize, hdec]
  · simp [Initialize, hdec]
  · simp [Initialize, hdec]
  · simp [Initialize, hdec]
  · simp [Initialize, hdec]
  · intro hc hp
    simp [Initialize, hdec, hc, hp]
  · intro decodeTmp UnmarshalOfferMap p data
    constructor
    · intro e he
      simp [FakeStoragePool.UnmarshalJSON, he]
    · intro attrs bytes offers e hok hoff
      simp [FakeStoragePool.UnmarshalJSON, hok, hoff]

/-- The input with the mistyped instance name, on the driver `gold1`: the error is
returned and the volume "v1" and the record of destroyed names are as before. -/
theorem Initialize_decode_failure_witness :
    (Initialize jsonUnmarshalSample gold1 "" typeMismatchJSON none).2
      = .returned (some (.unableToInitialize typeMismatchError)) ∧
    (Initialize jsonUnmarshalSample gold1 "" typeMismatchJSON none).1.Volumes = gold1.Volumes ∧
    (Initialize jsonUnmarshalSample gold1 "" typeMismatchJSON none).1.DestroyedVolumes
      = gold1.DestroyedVolumes :=
  ⟨(Initialize_decode_failure jsonUnmarshalSample gold1 "" typeMismatchJSON none
     { gold1.Config with Protocol := "block" } gold1.PoolAt typeMismatchError (by rfl)).1,
   (Initialize_decode_failure jsonUnmarshalSample gold1 "" typeMismatchJSON none
     { gold1.Config with Protocol := "block" } gold1.PoolAt typeMismatchError (by rfl)).2.1,
   (Initialize_decode_failure jsonUnmarshalSample gold1 "" typeMismatchJSON none
     { gold1.Config with Protocol := "block" } gold1.PoolAt typeMismatchError (by rfl)).2.2.1⟩

/-! ## Consistency of reachable states -/

theorem Consistent_new (cfg : FakeStorageDriverConfig) (poolAt : Nat → FakeStoragePool Offer) :
    Consistent (NewFakeStorageDriver cfg poolAt) := by
  refine ⟨by simp [NewFakeStorageDriver], by simp [NewFakeStorageDriver], ?_⟩
  intro n v h
  simp [NewFakeStorageDriver, mapGet] at h

theorem Consistent_set_ledger {d : FakeStorageDriver Offer} (h : Consistent d)
    (ledger : GoMap Bool) : Consistent { d with DestroyedVolumes := some ledger } :=
  ⟨h.1, by simp, h.2.2⟩

/-- Binding a new volume `name` to a key `q` of the registry that holds a pool keeps
consistency. -/
theorem Consistent_alloc {d : FakeStorageDriver Offer} (h : Consistent d) {name q : String}
    {size addr : Nat} {volumes : GoMap FakeVolume} (ledger : GoMap Bool)
    (poolAt : Nat → FakeStoragePool Offer)
    (hq : mapGet d.Config.Pools q = some (some addr)) (hvols : d.Volumes = some volumes) :
    Consistent
      { Config := d.Config
        Volumes := some (volumes.insert name { Name := name, PoolName := q, SizeBytes := size })
        DestroyedVolumes := some ledger
        PoolAt := poolAt } := by
  refine ⟨by simp, by simp, ?_⟩
  intro n v hv
  simp only [] at hv ⊢
  by_cases hn : n = name
  · subst hn
    rw [mapGet_insert_self] at hv
    cases hv
    exact ⟨rfl, addr, hq⟩
  · rw [mapGet_insert_other _ _ hn, ← hvols] at hv
    exact h.2.2 n v hv

theorem Consistent_step {d : FakeStorageDriver Offer} (h : Consistent d) (c : Call) :
    Consistent (step d c) := by
  cases c with
  | create name sizeBytes opts =>
    simp only [step, call]
    rcases Create_cases d name sizeBytes opts with ⟨heq, _⟩ |
      ⟨_, _, _, _, _, _, _, _, hdes, _⟩ |
      ⟨poolName, addr, volumes, destroyed, _, hpool, _, _, hvols, _, heq⟩
    · rw [heq]
      exact h
    · exact absurd hdes h.2.1
    · rw [heq]
      exact Consistent_alloc h _ _ hpool hvols
  | createClone name source snapshot opts =>
    simp only [step, call]
    rcases CreateClone_cases d name source snapshot opts with ⟨heq, _⟩ |
      ⟨_, _, _, _, _, _, _, _, hdes, _⟩ |
      ⟨sv, addr, volumes, destroyed, _, _, hpool, _, hvols, _, heq⟩
    · rw [heq]
      exact h
    · exact absurd hdes h.2.1
    · rw [heq]
      exact Consistent_alloc h _ _ hpool hvols
  | destroy name =>
    simp only [step, call]
    obtain ⟨destroyed, hdes⟩ := Option.ne_none_iff_exists'.mp h.2.1
    cases hvol : mapGet d.Volumes name with
    | none =>
      rw [Destroy_absent_eq d name hdes hvol]
      exact Consistent_set_ledger h _
    | some volume =>
      cases hpool : mapGet d.Config.Pools volume.PoolName with
      | none =>
        rw [Destroy_orphan_eq d name hdes hvol hpool]
        exact Consistent_set_ledger h _
      | some pool =>
        cases pool with
        | none =>
          rw [Destroy_nil_pool d name hdes hvol hpool]
          exact Consistent_set_ledger h _
        | some addr =>
          obtain ⟨volumes, hvols, _⟩ := ne_none_of_mapGet hvol
          rw [Destroy_live_eq d name hdes hvol hpool hvols]
          refine ⟨by simp, by simp, ?_⟩
          intro n v hn
          simp only [] at hn ⊢
          have hne : n ≠ name := by
            intro heq
            subst heq
            simp [mapGet, AList.lookup_erase] at hn
          have hn' : mapGet d.Volumes n = some v := by
            rw [hvols]
            rw [mapGet_some, lookup_erase_other _ hne] at hn
            exact hn
          exact h.2.2 n v hn'

theorem Consistent_run (calls : List Call) (d : FakeStorageDriver Offer) (h : Consistent d) :
    Consistent (run d calls) := by
  induction calls generalizing d with
  | nil => exact h
  | cons c cs ih => exact ih (step d c) (Consistent_step h c)

/-- C19. In every state reached from a freshly built driver by a finite sequence of
`Create`, `CreateClone` and `Destroy` calls, every live volume is stored under its own
name and its pool name is a key of the pool registry (one that holds a pool); so `Destroy`
never takes its "could not find pool" branch there and never returns an error: it returns
`nil`. -/
theorem reachable_consistent (cfg : FakeStorageDriverConfig)
    (poolAt : Nat → FakeStoragePool Offer) (calls : List Call) :
    (∀ n v, mapGet (run (NewFakeStorageDriver cfg poolAt) calls).Volumes n = some v →
      v.Name = n ∧
      (mapGet (run (NewFakeStorageDriver cfg poolAt) calls).Config.Pools v.PoolName).isSome ∧
      ∃ addr, mapGet (run (NewFakeStorageDriver cfg poolAt) calls).Config.Pools v.PoolName
        = some (some addr)) ∧
    (∀ name pool, (Destroy (run (NewFakeStorageDriver cfg poolAt) calls) name).2
      ≠ .returned (some (.couldNotFindPool pool))) ∧
    (∀ name, (Destroy (run (NewFakeStorageDriver cfg poolAt) calls) name).2
      = .returned none) := by
  have hinv := Consistent_run calls _ (Consistent_new cfg poolAt)
  generalize run (NewFakeStorageDriver cfg poolAt) calls = d at hinv
  have hnone : ∀ name, (Destroy d name).2 = .returned none := by
    intro name
    obtain ⟨destroyed, hdes⟩ := Option.ne_none_iff_exists'.mp hinv.2.1
    cases hv : mapGet d.Volumes name with
    | none => rw [Destroy_absent_eq d name hdes hv]
    | some volume =>
      obtain ⟨_, addr, hp⟩ := hinv.2.2 name volume hv
      obtain ⟨volumes, hvols, _⟩ := ne_none_of_mapGet hv
      rw [Destroy_live_eq d name hdes hv hp hvols]
  refine ⟨?_, ?_, hnone⟩
  · intro n v hv
    obtain ⟨h1, addr, hp⟩ := hinv.2.2 n v hv
    exact ⟨h1, by rw [hp]; rfl, addr, hp⟩
  · intro name pool h
    rw [hnone name] at h
    cases h

end Fake

/-! ## The names of the valid protocols -/

namespace Config

/-- C20 fails on the code: the result of `GetValidProtocolNames` has six entries, not
three. It starts with three empty strings, the slice made with the length of the map, and
the three keys follow; so the name "" occurs four times and the result is no permutation
of the three valid names, each of which `IsValidProtocol` accepts. -/
theorem GetValidProtocolNames_padded :
    validProtocols.keys.length = 3 ∧
    IsValidProtocol File = true ∧ IsValidProtocol Block = true ∧
    IsValidProtocol ProtocolAny = true ∧ IsValidProtocol ProtocolUnsupported = false ∧
    GetValidProtocolNames.length = 6 ∧
    GetValidProtocolNames.take 3 = ["", "", ""] ∧
    GetValidProtocolNames.drop 3 = validProtocols.keys ∧
    GetValidProtocolNames.count "" = 4 ∧
    ¬ GetValidProtocolNames.Perm [File, Block, ProtocolAny] := by
  refine ⟨by decide, by decide, by decide, by decide, by decide, by decide, by decide,
    by decide, by decide, ?_⟩
  intro h
  have hlen := h.length_eq
  revert hlen
  decide

/-- Whatever the order in which the three keys are ranged over, the result has six
entries and starts with three empty strings. -/
theorem GetValidProtocolNamesIn_length (iteration : List Protocol)
    (h : iteration.Perm validProtocols.keys) :
    (GetValidProtocolNamesIn iteration).length = 6 ∧
    (GetValidProtocolNamesIn iteration).take 3 = ["", "", ""] := by
  have hlen : iteration.length = 3 := by
    rw [h.length_eq]
    decide
  have hfold : ∀ (l init : List String),
      l.foldl (fun ret key => ret ++ [key]) init = init ++ l := by
    intro l
    induction l with
    | nil => intro init; simp
    | cons x xs ih => intro init; simp [ih]
  have hk : validProtocols.keys.length = 3 := by decide
  unfold GetValidProtocolNamesIn
  rw [hfold, hk]
  constructor
  · simp [hlen]
  · simp [List.replicate]

end Config
